import Mathlib

set_option maxRecDepth 100000

/-!
Shallow embedding of the schema-alias resolution engine of
`python scripts/definitions/tables.py`: the `col_alias` dictionary, the
`current_names` resolver, the `table_definitions` schema lists, and the
`_verify_col_alias` consistency pass, together with proofs about them.

Machine model of the Python code:

* A (table, column) identity is a pair of strings.
* A dictionary value is a pair whose components are either a Python string
  (`some s`) or Python `None` (`none`).
* A Python dict literal binds keys in order, a later duplicate key
  overwriting an earlier one, so lookup returns the LAST binding of a key;
  the dict is kept here as the ordered list of its bindings.
* `current_names` is general recursion, embedded with a fuel index.  A
  result of `none` means the recursion did not finish within the given
  fuel, so `∀ fuel, current_names a fuel t c = none` says the Python call
  never returns (in CPython it dies with an untyped `RecursionError` once
  the interpreter stack is exhausted — there is no typed cycle failure).
* Python exceptions are reified: `current_names` converts the dict's
  `KeyError` into `ColumnNotFoundError`, and every other path returns a
  tuple, so its observable behaviour is `ok value` or
  `raised columnNotFoundError`.

List-consuming helper functions are written with `List.rec` (rather than
the equation compiler) so that the kernel can evaluate them on the
766-entry dictionary; the accompanying `_nil`/`_cons` lemmas restate the
usual defining equations and hold by `rfl`.
-/

/-- A (table name, column name) pair, exactly as the Python code keys its
`col_alias` dict with 2-tuples of `str`. -/
abbrev Identity := String × String

/-- A `col_alias` dict value: each component is a Python string (`some s`,
with `some ""` the "unchanged" marker) or Python `None` (`none`). -/
abbrev AliasValue := Option String × Option String

/-- The Python exception classes relevant here: the built-in `KeyError`,
and `ColumnNotFoundError`, which tables.py line 14 declares as
`class ColumnNotFoundError(Exception)` — in particular NOT a subclass of
`KeyError`. -/
inductive PyError where
  | keyError
  | columnNotFoundError
deriving DecidableEq

/-- The outcome of a call to `current_names`: a normal return value or an
uncaught exception. -/
inductive PyResult where
  | ok (v : AliasValue)
  | raised (e : PyError)
deriving DecidableEq

/-- Lookup in a Python dict literal represented as its ordered binding
list: the LAST binding of a key wins; `none` models a `KeyError` miss. -/
def dictFind (l : List (Identity × AliasValue)) (key : Identity) :
    Option AliasValue :=
  List.rec none
    (fun kv _ acc =>
      match acc with
      | some v' => some v'
      | none => if kv.1 = key then some kv.2 else none)
    l

/-- `col_alias[(table, column)]` where either argument may be Python
`None` (reachable through the recursion in `current_names` if a dict value
pairs `None` with a string): every dict key is a pair of `str`, so no key
ever equals a tuple containing `None` and such a lookup is a `KeyError`
miss. -/
def lookupAlias (a : List (Identity × AliasValue)) :
    Option String → Option String → Option AliasValue
  | some t, some c => dictFind a (t, c)
  | _, _ => none

/-- Fuel-indexed embedding of `current_names(table, column)`
(tables.py lines 88–103), branch for branch:

```
try:                 tbl, col = col_alias[(table, column)]
except KeyError:     raise ColumnNotFoundError
if (tbl, col) == (None, None): return (None, None)
elif (tbl, col) == ('', ''):   return (table, column)
elif tbl == '':  return current_names(table, col)
elif col == '':  return current_names(tbl, column)
else:            return current_names(tbl, col)
```

`none` = the recursion needs more than `fuel` nested calls. -/
def current_names (a : List (Identity × AliasValue)) :
    Nat → Option String → Option String → Option PyResult
  | 0, _, _ => none
  | fuel + 1, table, column =>
    match lookupAlias a table column with
    | none => some (.raised .columnNotFoundError)
    | some (tbl, col) =>
      if (tbl, col) = ((none : Option String), (none : Option String)) then
        some (.ok (none, none))
      else if (tbl, col) = (some "", some "") then
        some (.ok (table, column))
      else if tbl = some "" then
        current_names a fuel table col
      else if col = some "" then
        current_names a fuel tbl column
      else
        current_names a fuel tbl col

/-- The call `current_names(t, c)` on alias dict `a` eventually returns
outcome `r`: some fuel completes the recursion. -/
def resolves (a : List (Identity × AliasValue))
    (t c : Option String) (r : PyResult) : Prop :=
  ∃ fuel, current_names a fuel t c = some r

/-- The call `current_names(t, c)` never returns: no amount of fuel
completes the recursion. -/
def loopsForever (a : List (Identity × AliasValue))
    (t c : Option String) : Prop :=
  ∀ fuel, current_names a fuel t c = none

/-- Boolean "all elements satisfy `p`" over a list, written with
`List.rec` for kernel evaluation; agrees with `∀ x ∈ l, p x = true`
(lemma `allB_eq_true_iff` below). -/
def allB {α : Type} (p : α → Bool) (l : List α) : Bool :=
  List.rec true (fun x _ acc => p x && acc) l

/-- The `col_alias` dict literal of tables.py (lines 370–1220): every
uncommented binding, in source order.  Keys and values are transcribed
verbatim; `(some "", some "")` is the source's `('','')` "current names"
sentinel and `(none, none)` its `(None, None)` "no longer recorded"
sentinel. -/
def col_alias : List (Identity × AliasValue) := [
  (("site_info", "GitRepoTag"), (some "", some "")),
  (("stats30_ui", "TIMESTAMP"), (some "", some "")),
  (("stats30_ui", "RECORD"), (some "", some "")),
  (("stats30_ui", "dec_ndvi_up1_Avg"), (some "", some "")),
  (("stats30_ui", "dec_ndvi_up2_Avg"), (some "", some "")),
  (("stats30_ui", "dec_ndvi_dn1_Avg"), (some "", some "")),
  (("stats30_ui", "dec_ndvi_dn2_Avg"), (some "", some "")),
  (("stats30_ui", "dec_pri_up1_Avg"), (some "", some "")),
  (("stats30_ui", "dec_pri_up2_Avg"), (some "", some "")),
  (("stats30_ui", "dec_pri_dn1_Avg"), (some "", some "")),
  (("stats30_ui", "dec_pri_dn2_Avg"), (some "", some "")),
  (("stats30_ui", "tblcalls_Tot"), (some "", some "")),
  (("stats5_ui", "TIMESTAMP"), (some "", some "")),
  (("stats5_ui", "RECORD"), (some "", some "")),
  (("stats5_ui", "dec_ndvi_up1_Avg"), (some "", some "")),
  (("stats5_ui", "dec_ndvi_up2_Avg"), (some "", some "")),
  (("stats5_ui", "dec_ndvi_dn1_Avg"), (some "", some "")),
  (("stats5_ui", "dec_ndvi_dn2_Avg"), (some "", some "")),
  (("stats5_ui", "dec_pri_up1_Avg"), (some "", some "")),
  (("stats5_ui", "dec_pri_up2_Avg"), (some "", some "")),
  (("stats5_ui", "dec_pri_dn1_Avg"), (some "", some "")),
  (("stats5_ui", "dec_pri_dn2_Avg"), (some "", some "")),
  (("stats5_ui", "tblcalls_Tot"), (some "", some "")),
  (("diagnostics", "TIMESTAMP"), (some "", some "")),
  (("diagnostics", "RECORD"), (some "", some "")),
  (("diagnostics", "total_scans"), (some "", some "")),
  (("diagnostics", "scans_1hz"), (some "", some "")),
  (("diagnostics", "scans_5s"), (some "", some "")),
  (("diagnostics", "skipped_10hz_scans"), (some "", some "")),
  (("diagnostics", "skipped_1hz_scans"), (some "", some "")),
  (("diagnostics", "skipped_5s_scans"), (some "", some "")),
  (("diagnostics", "watchdog_errors"), (some "", some "")),
  (("tsdata_extra", "TIMESTAMP"), (some "", some "")),
  (("tsdata_extra", "RECORD"), (some "", some "")),
  (("tsdata_extra", "lgr_n2o"), (some "", some "")),
  (("tsdata_extra", "lgr_co"), (some "", some "")),
  (("tsdata_extra", "lgr_h2o"), (some "", some "")),
  (("tsdata_extra", "pic_co2"), (some "", some "")),
  (("tsdata_extra", "pic_ch4"), (some "", some "")),
  (("tsdata_extra", "pic_h2o"), (some "", some "")),
  (("extra_info", "TIMESTAMP"), (some "", some "")),
  (("extra_info", "RECORD"), (some "", some "")),
  (("extra_info", "Decagon_NDVI_installed"), (some "", some "")),
  (("extra_info", "Decagon_PRI_installed"), (some "", some "")),
  (("extra_info", "LGR_n2oco_installed"), (some "", some "")),
  (("extra_info", "lgr_n2o_mult"), (some "", some "")),
  (("extra_info", "lgr_n2o_offset"), (some "", some "")),
  (("extra_info", "lgr_co_mult"), (some "", some "")),
  (("extra_info", "lgr_co_offset"), (some "", some "")),
  (("extra_info", "lgr_h2o_mult"), (some "", some "")),
  (("extra_info", "lgr_h2o_offset"), (some "", some "")),
  (("extra_info", "Picarro_co2ch4_installed"), (some "", some "")),
  (("extra_info", "pic_co2_mult"), (some "", some "")),
  (("extra_info", "pic_co2_offset"), (some "", some "")),
  (("extra_info", "pic_ch4_mult"), (some "", some "")),
  (("extra_info", "pic_ch4_offset"), (some "", some "")),
  (("extra_info", "pic_h2o_mult"), (some "", some "")),
  (("extra_info", "pic_h2o_offset"), (some "", some "")),
  (("stats30_hfp", "TIMESTAMP"), (none, none)),
  (("stats30_hfp", "RECORD"), (none, none)),
  (("stats30_hfp", "soil_hfp1_heat_flux_Avg"), (some "stats30", some "")),
  (("stats30_hfp", "soil_hfp1_sensitivity"), (some "stats30", some "")),
  (("stats30_hfp", "soil_hfp2_heat_flux_Avg"), (some "stats30", some "")),
  (("stats30_hfp", "soil_hfp2_sensitivity"), (some "stats30", some "")),
  (("stats30_hfp", "hfp1_samples_Tot"), (none, none)),
  (("stats30_hfp", "hfp2_samples_Tot"), (none, none)),
  (("stats30_hfp", "tblcalls_Tot"), (none, none)),
  (("stats5_hfp", "TIMESTAMP"), (none, none)),
  (("stats5_hfp", "RECORD"), (none, none)),
  (("stats5_hfp", "soil_hfp1_heat_flux_Avg"), (some "stats5", some "")),
  (("stats5_hfp", "soil_hfp1_sensitivity"), (some "stats5", some "")),
  (("stats5_hfp", "soil_hfp2_heat_flux_Avg"), (some "stats5", some "")),
  (("stats5_hfp", "soil_hfp2_sensitivity"), (some "stats5", some "")),
  (("stats5_hfp", "hfp1_samples_Tot"), (none, none)),
  (("stats5_hfp", "hfp2_samples_Tot"), (none, none)),
  (("stats5_hfp", "tblcalls_Tot"), (none, none)),
  (("site_info", "TIMESTAMP"), (some "", some "")),
  (("site_info", "RECORD"), (some "", some "")),
  (("site_info", "UTC_offset"), (some "", some "")),
  (("site_info", "sonic_azimuth"), (some "", some "")),
  (("site_info", "NRLite2_sens"), (some "", some "")),
  (("site_info", "LI190SB_sens"), (some "", some "")),
  (("site_info", "HFP_1_sens"), (some "", some "")),
  (("site_info", "HFP_2_sens"), (some "", some "")),
  (("site_info", "CompileResults"), (some "", some "")),
  (("site_info", "CardStatus"), (some "", some "")),
  (("site_info", "RunSig"), (some "", some "")),
  (("site_info", "ProgSig"), (some "", some "")),
  (("site_info", "SENSOR_DEC_5TM"), (none, none)),
  (("site_info", "SENSOR_DEC_6RAD"), (some "", some "Dec_6rad_installed")),
  (("site_info", "Dec_6rad_installed"), (none, none)),
  (("site_info", "SENSOR_LGR_N2OCO"), (some "", some "LGR_n2o_co_installed")),
  (("site_info", "LGR_n2o_co_installed"), (some "extra_info", some "LGR_n2oco_installed")),
  (("site_info", "SENSOR_PIC_CO2CH4"), (some "", some "Pic_co2_ch4_installed")),
  (("site_info", "Pic_co2_ch4_installed"), (some "extra_info", some "Picarro_co2ch4_installed")),
  (("site_info", "SENSOR_HFP01SC"), (some "", some "hfp_installed")),
  (("site_info", "hfp_installed"), (some "", some "")),
  (("stats30_6rad", "TIMESTAMP"), (some "", some "")),
  (("stats30_6rad", "RECORD"), (some "", some "")),
  (("stats30_6rad", "dec_6rad_up_Avg(1)"), (some "", some "dec_6rad_uplook_Avg(1)")),
  (("stats30_6rad", "dec_6rad_up_Avg(2)"), (some "", some "dec_6rad_uplook_Avg(2)")),
  (("stats30_6rad", "dec_6rad_up_Avg(3)"), (some "", some "dec_6rad_uplook_Avg(3)")),
  (("stats30_6rad", "dec_6rad_up_Avg(4)"), (some "", some "dec_6rad_uplook_Avg(4)")),
  (("stats30_6rad", "dec_6rad_up_Avg(5)"), (some "", some "dec_6rad_uplook_Avg(5)")),
  (("stats30_6rad", "dec_6rad_up_Avg(6)"), (some "", some "dec_6rad_uplook_Avg(6)")),
  (("stats30_6rad", "dec_6rad_dn_Avg(1)"), (some "", some "dec_6rad_dnlook_Avg(1)")),
  (("stats30_6rad", "dec_6rad_dn_Avg(2)"), (some "", some "dec_6rad_dnlook_Avg(2)")),
  (("stats30_6rad", "dec_6rad_dn_Avg(3)"), (some "", some "dec_6rad_dnlook_Avg(3)")),
  (("stats30_6rad", "dec_6rad_dn_Avg(4)"), (some "", some "dec_6rad_dnlook_Avg(4)")),
  (("stats30_6rad", "dec_6rad_dn_Avg(5)"), (some "", some "dec_6rad_dnlook_Avg(5)")),
  (("stats30_6rad", "dec_6rad_dn_Avg(6)"), (some "", some "dec_6rad_dnlook_Avg(6)")),
  (("stats30_6rad", "dec_6rad_uplook_Avg(1)"), (some "", some "")),
  (("stats30_6rad", "dec_6rad_uplook_Avg(2)"), (some "", some "")),
  (("stats30_6rad", "dec_6rad_uplook_Avg(3)"), (some "", some "")),
  (("stats30_6rad", "dec_6rad_uplook_Avg(4)"), (some "", some "")),
  (("stats30_6rad", "dec_6rad_uplook_Avg(5)"), (some "", some "")),
  (("stats30_6rad", "dec_6rad_uplook_Avg(6)"), (some "", some "")),
  (("stats30_6rad", "dec_6rad_dnlook_Avg(1)"), (some "", some "")),
  (("stats30_6rad", "dec_6rad_dnlook_Avg(2)"), (some "", some "")),
  (("stats30_6rad", "dec_6rad_dnlook_Avg(3)"), (some "", some "")),
  (("stats30_6rad", "dec_6rad_dnlook_Avg(4)"), (some "", some "")),
  (("stats30_6rad", "dec_6rad_dnlook_Avg(5)"), (some "", some "")),
  (("stats30_6rad", "dec_6rad_dnlook_Avg(6)"), (some "", some "")),
  (("stats30_6rad", "tblcalls_Tot"), (some "", some "")),
  (("stats5_6rad", "TIMESTAMP"), (some "", some "")),
  (("stats5_6rad", "RECORD"), (some "", some "")),
  (("stats5_6rad", "dec_6rad_up_Avg(1)"), (some "", some "dec_6rad_uplook_Avg(1)")),
  (("stats5_6rad", "dec_6rad_up_Avg(2)"), (some "", some "dec_6rad_uplook_Avg(2)")),
  (("stats5_6rad", "dec_6rad_up_Avg(3)"), (some "", some "dec_6rad_uplook_Avg(3)")),
  (("stats5_6rad", "dec_6rad_up_Avg(4)"), (some "", some "dec_6rad_uplook_Avg(4)")),
  (("stats5_6rad", "dec_6rad_up_Avg(5)"), (some "", some "dec_6rad_uplook_Avg(5)")),
  (("stats5_6rad", "dec_6rad_up_Avg(6)"), (some "", some "dec_6rad_uplook_Avg(6)")),
  (("stats5_6rad", "dec_6rad_dn_Avg(1)"), (some "", some "dec_6rad_dnlook_Avg(1)")),
  (("stats5_6rad", "dec_6rad_dn_Avg(2)"), (some "", some "dec_6rad_dnlook_Avg(2)")),
  (("stats5_6rad", "dec_6rad_dn_Avg(3)"), (some "", some "dec_6rad_dnlook_Avg(3)")),
  (("stats5_6rad", "dec_6rad_dn_Avg(4)"), (some "", some "dec_6rad_dnlook_Avg(4)")),
  (("stats5_6rad", "dec_6rad_dn_Avg(5)"), (some "", some "dec_6rad_dnlook_Avg(5)")),
  (("stats5_6rad", "dec_6rad_dn_Avg(6)"), (some "", some "dec_6rad_dnlook_Avg(6)")),
  (("stats5_6rad", "dec_6rad_uplook_Avg(1)"), (some "", some "")),
  (("stats5_6rad", "dec_6rad_uplook_Avg(2)"), (some "", some "")),
  (("stats5_6rad", "dec_6rad_uplook_Avg(3)"), (some "", some "")),
  (("stats5_6rad", "dec_6rad_uplook_Avg(4)"), (some "", some "")),
  (("stats5_6rad", "dec_6rad_uplook_Avg(5)"), (some "", some "")),
  (("stats5_6rad", "dec_6rad_uplook_Avg(6)"), (some "", some "")),
  (("stats5_6rad", "dec_6rad_dnlook_Avg(1)"), (some "", some "")),
  (("stats5_6rad", "dec_6rad_dnlook_Avg(2)"), (some "", some "")),
  (("stats5_6rad", "dec_6rad_dnlook_Avg(3)"), (some "", some "")),
  (("stats5_6rad", "dec_6rad_dnlook_Avg(4)"), (some "", some "")),
  (("stats5_6rad", "dec_6rad_dnlook_Avg(5)"), (some "", some "")),
  (("stats5_6rad", "dec_6rad_dnlook_Avg(6)"), (some "", some "")),
  (("stats5_6rad", "tblcalls_Tot"), (some "", some "")),
  (("tsdata", "TIMESTAMP"), (some "", some "")),
  (("tsdata", "RECORD"), (some "", some "")),
  (("tsdata", "Ux"), (some "", some "")),
  (("tsdata", "Uy"), (some "", some "")),
  (("tsdata", "Uz"), (some "", some "")),
  (("tsdata", "Ts"), (some "", some "")),
  (("tsdata", "diag_sonic"), (some "", some "")),
  (("tsdata", "CO2"), (some "", some "")),
  (("tsdata", "H2O"), (some "", some "")),
  (("tsdata", "diag_irga"), (some "", some "")),
  (("tsdata", "amb_tmpr"), (some "", some "")),
  (("tsdata", "amb_press"), (some "", some "")),
  (("tsdata", "CO2_signal"), (some "", some "")),
  (("tsdata", "H2O_signal"), (some "", some "")),
  (("stats30", "TIMESTAMP"), (some "", some "")),
  (("stats30", "RECORD"), (some "", some "")),
  (("stats30", "L"), (some "", some "")),
  (("stats30", "u_star"), (some "", some "")),
  (("stats30", "tau"), (some "", some "")),
  (("stats30", "Fc_wpl"), (some "", some "")),
  (("stats30", "LE_wpl"), (some "", some "")),
  (("stats30", "Hc"), (some "", some "")),
  (("stats30", "Ts_Avg"), (some "", some "")),
  (("stats30", "Ts_Std"), (some "", some "")),
  (("stats30", "Tc_Avg"), (some "", some "")),
  (("stats30", "Uz_Std"), (some "", some "")),
  (("stats30", "wnd_spd"), (some "", some "")),
  (("stats30", "rslt_wnd_spd"), (some "", some "")),
  (("stats30", "rslt_wnd_dir"), (some "", some "")),
  (("stats30", "std_wnd_dir"), (some "", some "")),
  (("stats30", "sonic_uptime"), (some "", some "")),
  (("stats30", "CO2_ppm_Avg_Avg"), (some "", some "CO2_ppm_Avg")),
  (("stats30", "CO2_ppm_Avg"), (some "", some "")),
  (("stats30", "CO2_mg_m3_Avg"), (some "", some "")),
  (("stats30", "CO2_mg_m3_Std"), (some "", some "")),
  (("stats30", "CO2_signal_Avg"), (some "", some "")),
  (("stats30", "H2O_g_kg_Avg"), (some "", some "")),
  (("stats30", "H2O_g_m3_Avg"), (some "", some "")),
  (("stats30", "H2O_g_m3_Std"), (some "", some "")),
  (("stats30", "H2O_signal_Avg"), (some "", some "")),
  (("stats30", "amb_tmpr_Avg"), (some "", some "")),
  (("stats30", "amb_press_Avg"), (some "", some "")),
  (("stats30", "irga_uptime"), (some "", some "")),
  (("stats30", "T_hmp_Avg"), (some "", some "")),
  (("stats30", "RH_hmp_Avg"), (some "", some "")),
  (("stats30", "e_hmp_Avg"), (some "", some "")),
  (("stats30", "e_sat_hmp_Avg"), (some "", some "")),
  (("stats30", "Rn_Avg"), (some "", some "")),
  (("stats30", "Rn_meas_Avg"), (some "", some "")),
  (("stats30", "PAR_totflx_Tot"), (some "", some "")),
  (("stats30", "PAR_flxdens_Avg"), (some "", some "")),
  (("stats30", "Met1_wnd_spd"), (some "", some "")),
  (("stats30", "Met1_rslt_wnd_spd"), (some "", some "")),
  (("stats30", "Met1_wnd_dir"), (some "", some "Met1_rslt_wnd_dir")),
  (("stats30", "Met1_rslt_wnd_dir"), (some "", some "")),
  (("stats30", "Met1_std_wnd_dir"), (some "", some "")),
  (("stats30", "Rain_mm_Tot"), (some "", some "")),
  (("stats30", "soil_5TM_ID5_epsilon_Avg"), (some "", some "soil_5TM_ID5_E_Avg")),
  (("stats30", "soil_5TM_ID5_E_Avg"), (some "", some "")),
  (("stats30", "soil_5TM_ID5_T_Avg"), (some "", some "")),
  (("stats30", "soil_5TM_ID5_VWC_Avg"), (some "", some "")),
  (("stats30", "soil_5TM_ID6_epsilon_Avg"), (some "", some "soil_5TM_ID6_E_Avg")),
  (("stats30", "soil_5TM_ID6_E_Avg"), (some "", some "")),
  (("stats30", "soil_5TM_ID6_T_Avg"), (some "", some "")),
  (("stats30", "soil_5TM_ID6_VWC_Avg"), (some "", some "")),
  (("stats30", "soil_5TM_ID7_epsilon_Avg"), (some "", some "soil_5TM_ID7_E_Avg")),
  (("stats30", "soil_5TM_ID7_E_Avg"), (some "", some "")),
  (("stats30", "soil_5TM_ID7_T_Avg"), (some "", some "")),
  (("stats30", "soil_5TM_ID7_VWC_Avg"), (some "", some "")),
  (("stats30", "soil_5TM_ID8_epsilon_Avg"), (some "", some "soil_5TM_ID8_E_Avg")),
  (("stats30", "soil_5TM_ID8_E_Avg"), (some "", some "")),
  (("stats30", "soil_5TM_ID8_T_Avg"), (some "", some "")),
  (("stats30", "soil_5TM_ID8_VWC_Avg"), (some "", some "")),
  (("stats30", "soil_5TM_ID9_epsilon_Avg"), (some "", some "soil_5TM_ID9_E_Avg")),
  (("stats30", "soil_5TM_ID9_E_Avg"), (some "", some "")),
  (("stats30", "soil_5TM_ID9_T_Avg"), (some "", some "")),
  (("stats30", "soil_5TM_ID9_VWC_Avg"), (some "", some "")),
  (("stats30", "soil_hfp1_heat_flux_Avg"), (some "", some "")),
  (("stats30", "soil_hfp1_sensitivity"), (some "", some "")),
  (("stats30", "soil_hfp2_heat_flux_Avg"), (some "", some "")),
  (("stats30", "soil_hfp2_sensitivity"), (some "", some "")),
  (("stats30", "panel_tmpr_Avg"), (some "", some "")),
  (("stats30", "batt_volt_Avg"), (some "", some "")),
  (("stats5", "TIMESTAMP"), (some "", some "")),
  (("stats5", "RECORD"), (some "", some "")),
  (("stats5", "L"), (some "", some "")),
  (("stats5", "u_star"), (some "", some "")),
  (("stats5", "tau"), (some "", some "")),
  (("stats5", "Fc_wpl"), (some "", some "")),
  (("stats5", "LE_wpl"), (some "", some "")),
  (("stats5", "Hc"), (some "", some "")),
  (("stats5", "Ts_Avg"), (some "", some "")),
  (("stats5", "Ts_Std"), (some "", some "")),
  (("stats5", "Tc_Avg"), (some "", some "")),
  (("stats5", "Uz_Std"), (some "", some "")),
  (("stats5", "wnd_spd"), (some "", some "")),
  (("stats5", "rslt_wnd_spd"), (some "", some "")),
  (("stats5", "rslt_wnd_dir"), (some "", some "")),
  (("stats5", "std_wnd_dir"), (some "", some "")),
  (("stats5", "sonic_uptime"), (some "", some "")),
  (("stats5", "CO2_ppm_Avg_Avg"), (some "", some "CO2_ppm_Avg")),
  (("stats5", "CO2_ppm_Avg"), (some "", some "")),
  (("stats5", "CO2_mg_m3_Avg"), (some "", some "")),
  (("stats5", "CO2_mg_m3_Std"), (some "", some "")),
  (("stats5", "CO2_signal_Avg"), (some "", some "")),
  (("stats5", "H2O_g_kg_Avg"), (some "", some "")),
  (("stats5", "H2O_g_m3_Avg"), (some "", some "")),
  (("stats5", "H2O_g_m3_Std"), (some "", some "")),
  (("stats5", "H2O_signal_Avg"), (some "", some "")),
  (("stats5", "amb_tmpr_Avg"), (some "", some "")),
  (("stats5", "amb_press_Avg"), (some "", some "")),
  (("stats5", "irga_uptime"), (some "", some "")),
  (("stats5", "T_hmp_Avg"), (some "", some "")),
  (("stats5", "RH_hmp_Avg"), (some "", some "")),
  (("stats5", "e_hmp_Avg"), (some "", some "")),
  (("stats5", "e_sat_hmp_Avg"), (some "", some "")),
  (("stats5", "Rn_Avg"), (some "", some "")),
  (("stats5", "Rn_meas_Avg"), (some "", some "")),
  (("stats5", "PAR_totflx_Tot"), (some "", some "")),
  (("stats5", "PAR_flxdens_Avg"), (some "", some "")),
  (("stats5", "Met1_wnd_spd"), (some "", some "")),
  (("stats5", "Met1_rslt_wnd_spd"), (some "", some "")),
  (("stats5", "Met1_wnd_dir"), (some "", some "Met1_rslt_wnd_dir")),
  (("stats5", "Met1_rslt_wnd_dir"), (some "", some "")),
  (("stats5", "Met1_std_wnd_dir"), (some "", some "")),
  (("stats5", "Rain_mm_Tot"), (some "", some "")),
  (("stats5", "soil_5TM_ID5_epsilon_Avg"), (some "", some "soil_5TM_ID5_E_Avg")),
  (("stats5", "soil_5TM_ID5_E_Avg"), (some "", some "")),
  (("stats5", "soil_5TM_ID5_T_Avg"), (some "", some "")),
  (("stats5", "soil_5TM_ID5_VWC_Avg"), (some "", some "")),
  (("stats5", "soil_5TM_ID6_epsilon_Avg"), (some "", some "soil_5TM_ID6_E_Avg")),
  (("stats5", "soil_5TM_ID6_E_Avg"), (some "", some "")),
  (("stats5", "soil_5TM_ID6_T_Avg"), (some "", some "")),
  (("stats5", "soil_5TM_ID6_VWC_Avg"), (some "", some "")),
  (("stats5", "soil_5TM_ID7_epsilon_Avg"), (some "", some "soil_5TM_ID7_E_Avg")),
  (("stats5", "soil_5TM_ID7_E_Avg"), (some "", some "")),
  (("stats5", "soil_5TM_ID7_T_Avg"), (some "", some "")),
  (("stats5", "soil_5TM_ID7_VWC_Avg"), (some "", some "")),
  (("stats5", "soil_5TM_ID8_epsilon_Avg"), (some "", some "soil_5TM_ID8_E_Avg")),
  (("stats5", "soil_5TM_ID8_E_Avg"), (some "", some "")),
  (("stats5", "soil_5TM_ID8_T_Avg"), (some "", some "")),
  (("stats5", "soil_5TM_ID8_VWC_Avg"), (some "", some "")),
  (("stats5", "soil_5TM_ID9_epsilon_Avg"), (some "", some "soil_5TM_ID9_E_Avg")),
  (("stats5", "soil_5TM_ID9_E_Avg"), (some "", some "")),
  (("stats5", "soil_5TM_ID9_T_Avg"), (some "", some "")),
  (("stats5", "soil_5TM_ID9_VWC_Avg"), (some "", some "")),
  (("stats5", "soil_hfp1_heat_flux_Avg"), (some "", some "")),
  (("stats5", "soil_hfp1_sensitivity"), (some "", some "")),
  (("stats5", "soil_hfp2_heat_flux_Avg"), (some "", some "")),
  (("stats5", "soil_hfp2_sensitivity"), (some "", some "")),
  (("stats5", "panel_tmpr_Avg"), (some "", some "")),
  (("stats5", "batt_volt_Avg"), (some "", some "")),
  (("site_daily", "TIMESTAMP"), (some "", some "")),
  (("site_daily", "RECORD"), (some "", some "")),
  (("site_daily", "sonic_azimuth"), (none, none)),
  (("site_daily", "latitude"), (some "", some "latitude_Med")),
  (("site_daily", "latitude_Med"), (some "", some "")),
  (("site_daily", "latitude_a_Avg"), (none, none)),
  (("site_daily", "latitude_b_Avg"), (none, none)),
  (("site_daily", "longitude"), (some "", some "longitude_Med")),
  (("site_daily", "longitude_Med"), (some "", some "")),
  (("site_daily", "longitude_a_Avg"), (none, none)),
  (("site_daily", "longitude_b_Avg"), (none, none)),
  (("site_daily", "magnetic_variation_Med"), (some "", some "")),
  (("site_daily", "magnetic_variation_Avg"), (none, none)),
  (("site_daily", "nmbr_satellites_Avg"), (some "", some "")),
  (("site_daily", "altitude_Med"), (some "", some "")),
  (("site_daily", "altitude_Avg"), (some "", some "")),
  (("site_daily", "gps_ready_Min"), (some "", some "")),
  (("site_daily", "max_clock_change"), (some "", some "")),
  (("site_daily", "nmbr_clock_change"), (some "", some "")),
  (("site_daily", "RunSig"), (none, none)),
  (("site_daily", "ProgSig"), (none, none)),
  (("site_daily", "batt_volt_Min"), (some "", some "")),
  (("site_daily", "batt_volt_TMn"), (some "", some "")),
  (("site_daily", "batt_volt_Max"), (some "", some "")),
  (("site_daily", "batt_volt_TMx"), (some "", some "")),
  (("site_daily", "T_hmp_Min"), (some "", some "")),
  (("site_daily", "T_hmp_TMn"), (some "", some "")),
  (("site_daily", "T_hmp_Max"), (some "", some "")),
  (("site_daily", "T_hmp_TMx"), (some "", some "")),
  (("stats30_soil", "TIMESTAMP"), (none, none)),
  (("stats30_soil", "RECORD"), (none, none)),
  (("stats30_soil", "soil_5TM_ID5_epsilon_Avg"), (some "stats30", some "")),
  (("stats30_soil", "soil_5TM_ID5_T_Avg"), (some "stats30", some "")),
  (("stats30_soil", "soil_5TM_ID5_VWC_Avg"), (some "stats30", some "")),
  (("stats30_soil", "soil_5TM_ID6_epsilon_Avg"), (some "stats30", some "")),
  (("stats30_soil", "soil_5TM_ID6_T_Avg"), (some "stats30", some "")),
  (("stats30_soil", "soil_5TM_ID6_VWC_Avg"), (some "stats30", some "")),
  (("stats30_soil", "soil_5TM_ID7_epsilon_Avg"), (some "stats30", some "")),
  (("stats30_soil", "soil_5TM_ID7_T_Avg"), (some "stats30", some "")),
  (("stats30_soil", "soil_5TM_ID7_VWC_Avg"), (some "stats30", some "")),
  (("stats30_soil", "soil_5TM_ID8_epsilon_Avg"), (some "stats30", some "")),
  (("stats30_soil", "soil_5TM_ID8_T_Avg"), (some "stats30", some "")),
  (("stats30_soil", "soil_5TM_ID8_VWC_Avg"), (some "stats30", some "")),
  (("stats30_soil", "soil_5TM_ID9_epsilon_Avg"), (some "stats30", some "")),
  (("stats30_soil", "soil_5TM_ID9_T_Avg"), (some "stats30", some "")),
  (("stats30_soil", "soil_5TM_ID9_VWC_Avg"), (some "stats30", some "")),
  (("stats30_soil", "soil_hfp1_heat_flux_Avg"), (some "stats30_hfp", some "")),
  (("stats30_soil", "soil_hfp1_sensitivity"), (some "stats30_hfp", some "")),
  (("stats30_soil", "soil_hfp2_heat_flux_Avg"), (some "stats30_hfp", some "")),
  (("stats30_soil", "soil_hfp2_sensitivity"), (some "stats30_hfp", some "")),
  (("stats5_soil", "TIMESTAMP"), (none, none)),
  (("stats5_soil", "RECORD"), (none, none)),
  (("stats5_soil", "soil_5TM_ID5_epsilon_Avg"), (some "stats5", some "")),
  (("stats5_soil", "soil_5TM_ID5_T_Avg"), (some "stats5", some "")),
  (("stats5_soil", "soil_5TM_ID5_VWC_Avg"), (some "stats5", some "")),
  (("stats5_soil", "soil_5TM_ID6_epsilon_Avg"), (some "stats5", some "")),
  (("stats5_soil", "soil_5TM_ID6_T_Avg"), (some "stats5", some "")),
  (("stats5_soil", "soil_5TM_ID6_VWC_Avg"), (some "stats5", some "")),
  (("stats5_soil", "soil_5TM_ID7_epsilon_Avg"), (some "stats5", some "")),
  (("stats5_soil", "soil_5TM_ID7_T_Avg"), (some "stats5", some "")),
  (("stats5_soil", "soil_5TM_ID7_VWC_Avg"), (some "stats5", some "")),
  (("stats5_soil", "soil_5TM_ID8_epsilon_Avg"), (some "stats5", some "")),
  (("stats5_soil", "soil_5TM_ID8_T_Avg"), (some "stats5", some "")),
  (("stats5_soil", "soil_5TM_ID8_VWC_Avg"), (some "stats5", some "")),
  (("stats5_soil", "soil_5TM_ID9_epsilon_Avg"), (some "stats5", some "")),
  (("stats5_soil", "soil_5TM_ID9_T_Avg"), (some "stats5", some "")),
  (("stats5_soil", "soil_5TM_ID9_VWC_Avg"), (some "stats5", some "")),
  (("stats5_soil", "soil_hfp1_heat_flux_Avg"), (some "stats5_hfp", some "")),
  (("stats5_soil", "soil_hfp1_sensitivity"), (some "stats5_hfp", some "")),
  (("stats5_soil", "soil_hfp2_heat_flux_Avg"), (some "stats5_hfp", some "")),
  (("stats5_soil", "soil_hfp2_sensitivity"), (some "stats5_hfp", some "")),
  (("tsdata_n2o_co", "TIMESTAMP"), (none, none)),
  (("tsdata_n2o_co", "RECORD"), (none, none)),
  (("tsdata_n2o_co", "lgr_n2o"), (some "tsdata_extra", some "lgr_n2o")),
  (("tsdata_n2o_co", "lgr_co"), (some "tsdata_extra", some "lgr_co")),
  (("stats30_n2o_co", "TIMESTAMP"), (some "", some "")),
  (("stats30_n2o_co", "RECORD"), (some "", some "")),
  (("stats30_n2o_co", "lgr_n2o_Avg"), (some "", some "")),
  (("stats30_n2o_co", "lgr_n2o_Std"), (some "", some "")),
  (("stats30_n2o_co", "lgr_co_Avg"), (some "", some "")),
  (("stats30_n2o_co", "lgr_co_Std"), (some "", some "")),
  (("stats30_n2o_co", "lgr_uptime"), (some "", some "lgr_n2o_co_uptime")),
  (("stats30_n2o_co", "cov_n2o_Uz"), (none, none)),
  (("stats30_n2o_co", "cov_co_Uz"), (none, none)),
  (("stats30_n2o_co", "lgr_n2o_co_uptime"), (some "", some "")),
  (("stats5_n2o_co", "TIMESTAMP"), (some "", some "")),
  (("stats5_n2o_co", "RECORD"), (some "", some "")),
  (("stats5_n2o_co", "lgr_n2o_Avg"), (some "", some "")),
  (("stats5_n2o_co", "lgr_n2o_Std"), (some "", some "")),
  (("stats5_n2o_co", "lgr_co_Avg"), (some "", some "")),
  (("stats5_n2o_co", "lgr_co_Std"), (some "", some "")),
  (("stats5_n2o_co", "lgr_uptime"), (some "", some "lgr_n2o_co_uptime")),
  (("stats5_n2o_co", "cov_n2o_Uz"), (none, none)),
  (("stats5_n2o_co", "cov_co_Uz"), (none, none)),
  (("stats5_n2o_co", "lgr_n2o_co_uptime"), (some "", some "")),
  (("stats30_extra", "TIMESTAMP"), (some "stats30_n2o_co", some "")),
  (("stats30_extra", "RECORD"), (some "stats30_n2o_co", some "")),
  (("stats30_extra", "lgr_n2o_Avg"), (some "stats30_n2o_co", some "")),
  (("stats30_extra", "lgr_n2o_Std"), (some "stats30_n2o_co", some "")),
  (("stats30_extra", "lgr_co_Avg"), (some "stats30_n2o_co", some "")),
  (("stats30_extra", "lgr_co_Std"), (some "stats30_n2o_co", some "")),
  (("stats30_extra", "lgr_uptime"), (some "stats30_n2o_co", some "")),
  (("stats30_extra", "cov_n2o_Uz"), (some "stats30_n2o_co", some "")),
  (("stats30_extra", "cov_co_Uz"), (some "stats30_n2o_co", some "")),
  (("stats5_extra", "TIMESTAMP"), (some "stats5_n2o_co", some "")),
  (("stats5_extra", "RECORD"), (some "stats5_n2o_co", some "")),
  (("stats5_extra", "lgr_n2o_Avg"), (some "stats5_n2o_co", some "")),
  (("stats5_extra", "lgr_n2o_Std"), (some "stats5_n2o_co", some "")),
  (("stats5_extra", "lgr_co_Avg"), (some "stats5_n2o_co", some "")),
  (("stats5_extra", "lgr_co_Std"), (some "stats5_n2o_co", some "")),
  (("stats5_extra", "lgr_uptime"), (some "stats5_n2o_co", some "")),
  (("stats5_extra", "cov_n2o_Uz"), (some "stats5_n2o_co", some "")),
  (("stats5_extra", "cov_co_Uz"), (some "stats5_n2o_co", some "")),
  (("CFNT_tsdata", "TIMESTAMP"), (some "tsdata", some "")),
  (("CFNT_tsdata", "RECORD"), (some "tsdata", some "")),
  (("CFNT_tsdata", "Ux"), (some "tsdata", some "")),
  (("CFNT_tsdata", "Uy"), (some "tsdata", some "")),
  (("CFNT_tsdata", "Uz"), (some "tsdata", some "")),
  (("CFNT_tsdata", "Ts"), (some "tsdata", some "")),
  (("CFNT_tsdata", "diag_sonic"), (some "tsdata", some "")),
  (("CFNT_tsdata", "CO2"), (some "tsdata", some "")),
  (("CFNT_tsdata", "H2O"), (some "tsdata", some "")),
  (("CFNT_tsdata", "diag_irga"), (some "tsdata", some "")),
  (("CFNT_tsdata", "amb_tmpr"), (some "tsdata", some "")),
  (("CFNT_tsdata", "amb_press"), (some "tsdata", some "")),
  (("CFNT_tsdata", "CO2_signal"), (some "tsdata", some "")),
  (("CFNT_tsdata", "H2O_signal"), (some "tsdata", some "")),
  (("CFNT_stats30", "TIMESTAMP"), (some "stats30", some "")),
  (("CFNT_stats30", "RECORD"), (some "stats30", some "")),
  (("CFNT_stats30", "L"), (some "stats30", some "")),
  (("CFNT_stats30", "u_star"), (some "stats30", some "")),
  (("CFNT_stats30", "tau"), (some "stats30", some "")),
  (("CFNT_stats30", "Fc_wpl"), (some "stats30", some "")),
  (("CFNT_stats30", "LE_wpl"), (some "stats30", some "")),
  (("CFNT_stats30", "Hc"), (some "stats30", some "")),
  (("CFNT_stats30", "Ts_Avg"), (some "stats30", some "")),
  (("CFNT_stats30", "Ts_Std"), (some "stats30", some "")),
  (("CFNT_stats30", "Tc_Avg"), (some "stats30", some "")),
  (("CFNT_stats30", "Tc_Std"), (none, none)),
  (("CFNT_stats30", "Uz_Std"), (some "stats30", some "")),
  (("CFNT_stats30", "wnd_spd"), (some "stats30", some "")),
  (("CFNT_stats30", "rslt_wnd_spd"), (some "stats30", some "")),
  (("CFNT_stats30", "std_wnd_dir"), (some "stats30", some "")),
  (("CFNT_stats30", "wnd_dir_compass"), (some "stats30", some "rslt_wnd_dir")),
  (("CFNT_stats30", "sonic_samples_Tot"), (none, none)),
  (("CFNT_stats30", "sonic_uptime"), (some "stats30", some "")),
  (("CFNT_stats30", "CO2_ppm_Avg"), (some "stats30", some "")),
  (("CFNT_stats30", "CO2_ppm_Std"), (none, none)),
  (("CFNT_stats30", "CO2_mg_m3_Avg"), (some "stats30", some "")),
  (("CFNT_stats30", "CO2_mg_m3_Std"), (some "stats30", some "")),
  (("CFNT_stats30", "CO2_signal_Avg"), (some "stats30", some "")),
  (("CFNT_stats30", "H2O_g_kg_Avg"), (some "stats30", some "")),
  (("CFNT_stats30", "H2O_g_kg_Std"), (none, none)),
  (("CFNT_stats30", "H2O_g_m3_Avg"), (some "stats30", some "")),
  (("CFNT_stats30", "H2O_g_m3_Std"), (some "stats30", some "")),
  (("CFNT_stats30", "H2O_signal_Avg"), (some "stats30", some "")),
  (("CFNT_stats30", "amb_tmpr_Avg"), (some "stats30", some "")),
  (("CFNT_stats30", "amb_press_Avg"), (some "stats30", some "")),
  (("CFNT_stats30", "irga_samples_Tot"), (none, none)),
  (("CFNT_stats30", "irga_uptime"), (some "stats30", some "")),
  (("CFNT_stats30", "T_hmp_Avg"), (some "stats30", some "")),
  (("CFNT_stats30", "RH_hmp_Avg"), (some "stats30", some "")),
  (("CFNT_stats30", "e_hmp_Avg"), (some "stats30", some "")),
  (("CFNT_stats30", "e_sat_hmp_Avg"), (some "stats30", some "")),
  (("CFNT_stats30", "hmp_uptime"), (none, none)),
  (("CFNT_stats30", "Rn_Avg"), (some "stats30", some "")),
  (("CFNT_stats30", "Rn_meas_Avg"), (some "stats30", some "")),
  (("CFNT_stats30", "PAR_totflx_Tot"), (some "stats30", some "")),
  (("CFNT_stats30", "PAR_flxdens_Avg"), (some "stats30", some "")),
  (("CFNT_stats30", "Met1_wnd_spd"), (some "stats30", some "")),
  (("CFNT_stats30", "Met1_rslt_wnd_spd"), (some "stats30", some "")),
  (("CFNT_stats30", "Met1_wnd_dir"), (some "stats30", some "")),
  (("CFNT_stats30", "Met1_std_wnd_dir"), (some "stats30", some "")),
  (("CFNT_stats30", "Met1_uptime"), (none, none)),
  (("CFNT_stats30", "Rain_mm_Tot"), (some "stats30", some "")),
  (("CFNT_stats30", "panel_tmpr_Avg"), (some "stats30", some "")),
  (("CFNT_stats30", "batt_volt_Avg"), (some "stats30", some "")),
  (("CFNT_stats5", "TIMESTAMP"), (some "stats5", some "")),
  (("CFNT_stats5", "RECORD"), (some "stats5", some "")),
  (("CFNT_stats5", "L"), (some "stats5", some "")),
  (("CFNT_stats5", "u_star"), (some "stats5", some "")),
  (("CFNT_stats5", "tau"), (some "stats5", some "")),
  (("CFNT_stats5", "Fc_wpl"), (some "stats5", some "")),
  (("CFNT_stats5", "LE_wpl"), (some "stats5", some "")),
  (("CFNT_stats5", "Hc"), (some "stats5", some "")),
  (("CFNT_stats5", "Ts_Avg"), (some "stats5", some "")),
  (("CFNT_stats5", "Ts_Std"), (some "stats5", some "")),
  (("CFNT_stats5", "Tc_Avg"), (some "stats5", some "")),
  (("CFNT_stats5", "Tc_Std"), (none, none)),
  (("CFNT_stats5", "Uz_Std"), (some "stats5", some "")),
  (("CFNT_stats5", "wnd_spd"), (some "stats5", some "")),
  (("CFNT_stats5", "rslt_wnd_spd"), (some "stats5", some "")),
  (("CFNT_stats5", "std_wnd_dir"), (some "stats5", some "")),
  (("CFNT_stats5", "wnd_dir_compass"), (some "stats5", some "rslt_wnd_spd")),
  (("CFNT_stats5", "sonic_samples_Tot"), (none, none)),
  (("CFNT_stats5", "sonic_uptime"), (some "stats5", some "")),
  (("CFNT_stats5", "CO2_ppm_Avg"), (some "stats5", some "")),
  (("CFNT_stats5", "CO2_ppm_Std"), (none, none)),
  (("CFNT_stats5", "CO2_mg_m3_Avg"), (some "stats5", some "")),
  (("CFNT_stats5", "CO2_mg_m3_Std"), (some "stats5", some "")),
  (("CFNT_stats5", "CO2_signal_Avg"), (some "stats5", some "")),
  (("CFNT_stats5", "H2O_g_kg_Avg"), (some "stats5", some "")),
  (("CFNT_stats5", "H2O_g_kg_Std"), (none, none)),
  (("CFNT_stats5", "H2O_g_m3_Avg"), (some "stats5", some "")),
  (("CFNT_stats5", "H2O_g_m3_Std"), (some "stats5", some "")),
  (("CFNT_stats5", "H2O_signal_Avg"), (some "stats5", some "")),
  (("CFNT_stats5", "amb_tmpr_Avg"), (some "stats5", some "")),
  (("CFNT_stats5", "amb_press_Avg"), (some "stats5", some "")),
  (("CFNT_stats5", "irga_samples_Tot"), (none, none)),
  (("CFNT_stats5", "irga_uptime"), (some "stats5", some "")),
  (("CFNT_stats5", "T_hmp_Avg"), (some "stats5", some "")),
  (("CFNT_stats5", "RH_hmp_Avg"), (some "stats5", some "")),
  (("CFNT_stats5", "e_hmp_Avg"), (some "stats5", some "")),
  (("CFNT_stats5", "e_sat_hmp_Avg"), (some "stats5", some "")),
  (("CFNT_stats5", "hmp_uptime"), (none, none)),
  (("CFNT_stats5", "Rn_Avg"), (some "stats5", some "")),
  (("CFNT_stats5", "Rn_meas_Avg"), (some "stats5", some "")),
  (("CFNT_stats5", "PAR_totflx_Tot"), (some "stats5", some "")),
  (("CFNT_stats5", "PAR_flxdens_Avg"), (some "stats5", some "")),
  (("CFNT_stats5", "Met1_wnd_spd"), (some "stats5", some "")),
  (("CFNT_stats5", "Met1_rslt_wnd_spd"), (some "stats5", some "")),
  (("CFNT_stats5", "Met1_wnd_dir"), (some "stats5", some "")),
  (("CFNT_stats5", "Met1_std_wnd_dir"), (some "stats5", some "")),
  (("CFNT_stats5", "Met1_uptime"), (none, none)),
  (("CFNT_stats5", "Rain_mm_Tot"), (some "stats5", some "")),
  (("CFNT_stats5", "panel_tmpr_Avg"), (some "stats5", some "")),
  (("CFNT_stats5", "batt_volt_Avg"), (some "stats5", some "")),
  (("CFNT_site_daily", "TIMESTAMP"), (some "site_daily", some "")),
  (("CFNT_site_daily", "RECORD"), (some "site_daily", some "")),
  (("CFNT_site_daily", "sonic_azimuth"), (some "site_daily", some "")),
  (("CFNT_site_daily", "latitude_a_Avg"), (some "site_daily", some "")),
  (("CFNT_site_daily", "latitude_b_Avg"), (some "site_daily", some "")),
  (("CFNT_site_daily", "longitude_a_Avg"), (some "site_daily", some "")),
  (("CFNT_site_daily", "longitude_b_Avg"), (some "site_daily", some "")),
  (("CFNT_site_daily", "latitude_a_Std"), (none, none)),
  (("CFNT_site_daily", "latitude_b_Std"), (none, none)),
  (("CFNT_site_daily", "longitude_a_Std"), (none, none)),
  (("CFNT_site_daily", "longitude_b_Std"), (none, none)),
  (("CFNT_site_daily", "magnetic_variation_Avg"), (some "site_daily", some "")),
  (("CFNT_site_daily", "magnetic_variation_Std"), (none, none)),
  (("CFNT_site_daily", "nmbr_satellites_Avg"), (some "site_daily", some "")),
  (("CFNT_site_daily", "altitude_Avg"), (some "site_daily", some "")),
  (("CFNT_site_daily", "altitude_Std"), (none, none)),
  (("CFNT_site_daily", "gps_ready_Min"), (some "site_daily", some "")),
  (("CFNT_site_daily", "max_clock_change"), (some "site_daily", some "")),
  (("CFNT_site_daily", "nmbr_clock_change"), (some "site_daily", some "")),
  (("CFNT_met_5min", "TIMESTAMP"), (some "CFNT_stats5", some "")),
  (("CFNT_met_5min", "RECORD"), (some "CFNT_stats5", some "")),
  (("CFNT_met_5min", "L"), (some "CFNT_stats5", some "")),
  (("CFNT_met_5min", "Hs"), (none, none)),
  (("CFNT_met_5min", "u_star"), (some "CFNT_stats5", some "")),
  (("CFNT_met_5min", "Ts_stdev"), (some "CFNT_stats5", some "Ts_Std")),
  (("CFNT_met_5min", "Uz_stdev"), (some "CFNT_stats5", some "Uz_Std")),
  (("CFNT_met_5min", "wnd_spd"), (some "CFNT_stats5", some "")),
  (("CFNT_met_5min", "rslt_wnd_spd"), (some "CFNT_stats5", some "")),
  (("CFNT_met_5min", "std_wnd_dir"), (some "CFNT_stats5", some "")),
  (("CFNT_met_5min", "wnd_dir_compass"), (some "CFNT_stats5", some "")),
  (("CFNT_met_5min", "Ts_Avg"), (some "CFNT_stats5", some "")),
  (("CFNT_met_5min", "sonic_samples_Tot"), (some "CFNT_stats5", some "")),
  (("CFNT_met_5min", "Fc_wpl"), (some "CFNT_stats5", some "")),
  (("CFNT_met_5min", "LE_wpl"), (some "CFNT_stats5", some "")),
  (("CFNT_met_5min", "Hc"), (some "CFNT_stats5", some "")),
  (("CFNT_met_5min", "CO2_stdev"), (some "CFNT_stats5", some "CO2_mg_m3_Std")),
  (("CFNT_met_5min", "H2O_stdev"), (some "CFNT_stats5", some "H2O_g_m3_Std")),
  (("CFNT_met_5min", "Tc_stdev"), (some "CFNT_stats5", some "Tc_Std")),
  (("CFNT_met_5min", "CO2_mean"), (some "CFNT_stats5", some "CO2_mg_m3_Avg")),
  (("CFNT_met_5min", "H2O_mean"), (some "CFNT_stats5", some "H2O_g_m3_Avg")),
  (("CFNT_met_5min", "amb_press_mean"), (some "CFNT_stats5", some "amb_press_Avg")),
  (("CFNT_met_5min", "Tc_mean"), (some "CFNT_stats5", some "Tc_Avg")),
  (("CFNT_met_5min", "CO2_sig_strgth_mean"), (some "CFNT_stats5", some "CO2_signal_Avg")),
  (("CFNT_met_5min", "H2O_sig_strgth_mean"), (some "CFNT_stats5", some "H2O_signal_Avg")),
  (("CFNT_met_5min", "T_hmp_mean"), (some "CFNT_stats5", some "T_hmp_Avg")),
  (("CFNT_met_5min", "RH_hmp_mean"), (some "CFNT_stats5", some "RH_hmp_Avg")),
  (("CFNT_met_5min", "Rn_Avg"), (some "CFNT_stats5", some "")),
  (("CFNT_met_5min", "Rn_meas_Avg"), (some "CFNT_stats5", some "")),
  (("CFNT_met_5min", "PAR_totflx_Tot"), (some "CFNT_stats5", some "")),
  (("CFNT_met_5min", "PAR_flxdens_Avg"), (some "CFNT_stats5", some "")),
  (("CFNT_met_5min", "034b_ws2"), (some "CFNT_stats5", some "Met1_wnd_spd")),
  (("CFNT_met_5min", "034b_wd2"), (none, none)),
  (("CFNT_met_5min", "034b_stdwd2"), (none, none)),
  (("CFNT_met_5min", "Rain_mm_Tot"), (some "CFNT_stats5", some "")),
  (("CFNT_met_5min", "latitude_a"), (none, none)),
  (("CFNT_met_5min", "latitude_b"), (none, none)),
  (("CFNT_met_5min", "longitude_a"), (none, none)),
  (("CFNT_met_5min", "longitude_b"), (none, none)),
  (("CFNT_met_5min", "magnetic_variation"), (none, none)),
  (("CFNT_met_5min", "altitude"), (none, none)),
  (("CFNT_met_5min", "max_clock_change"), (none, none)),
  (("CFNT_met_5min", "nmbr_clock_change"), (none, none)),
  (("CFNT_met_5min", "panel_tmpr_Avg"), (some "CFNT_stats5", some "")),
  (("CFNT_met_5min", "batt_volt_Avg"), (some "CFNT_stats5", some "")),
  (("extra_gas", "TIMESTAMP"), (none, none)),
  (("extra_gas", "RECORD"), (none, none)),
  (("extra_gas", "n2o_Avg"), (none, none)),
  (("extra_gas", "c_monoxide_Avg"), (none, none)),
  (("extra_gas", "ch4_Avg"), (none, none)),
  (("extra_gas", "co2_picarro_Avg"), (none, none)),
  (("extra_gas", "co2_mix_ratio_Avg"), (none, none)),
  (("extra_gas", "h2o_mix_ratio_Avg"), (none, none)),
  (("extra_gas", "034b_ws"), (none, none)),
  (("extra_gas", "034b_wd"), (none, none)),
  (("extra_gas", "034b_stdwd"), (none, none)),
  (("ts_data", "TIMESTAMP"), (some "CFNT_tsdata", some "")),
  (("ts_data", "RECORD"), (some "CFNT_tsdata", some "")),
  (("ts_data", "Ux"), (some "CFNT_tsdata", some "")),
  (("ts_data", "Uy"), (some "CFNT_tsdata", some "")),
  (("ts_data", "Uz"), (some "CFNT_tsdata", some "")),
  (("ts_data", "Ts"), (some "CFNT_tsdata", some "")),
  (("ts_data", "diag_sonic"), (some "CFNT_tsdata", some "")),
  (("ts_data", "atiUx"), (none, none)),
  (("ts_data", "atiUy"), (none, none)),
  (("ts_data", "atiUz"), (none, none)),
  (("ts_data", "atiTs"), (none, none)),
  (("ts_data", "CO2_molar"), (some "", some "co2_molar_density")),
  (("ts_data", "H2O_molar"), (some "", some "h2o_molar_density")),
  (("ts_data", "co2_molar_density"), (none, none)),
  (("ts_data", "h2o_molar_density"), (none, none)),
  (("ts_data", "co2_mix_ratio"), (some "", some "co2_molar_density")),
  (("ts_data", "h2o_mix_ratio"), (some "", some "h2o_molar_density")),
  (("ts_data", "n2o"), (some "tsdata_extra", some "lgr_n2o")),
  (("ts_data", "c_monoxide"), (some "tsdata_extra", some "lgr_co")),
  (("ts_data", "ch4"), (some "tsdata_extra", some "pic_ch4")),
  (("ts_data", "co2_picarro"), (some "tsdata_extra", some "pic_co2")),
  (("ts_data", "CO2"), (some "CFNT_tsdata", some "")),
  (("ts_data", "H2O"), (some "CFNT_tsdata", some "")),
  (("ts_data", "diag_irga"), (some "CFNT_tsdata", some "")),
  (("ts_data", "amb_tmpr"), (some "CFNT_tsdata", some "")),
  (("ts_data", "amb_press"), (some "CFNT_tsdata", some "")),
  (("ts_data", "CO2_sig_strgth"), (some "CFNT_tsdata", some "CO2_signal")),
  (("ts_data", "H2O_sig_strgth"), (some "CFNT_tsdata", some "H2O_signal")),
  (("flux", "TIMESTAMP"), (some "CFNT_stats30", some "")),
  (("flux", "RECORD"), (some "CFNT_stats30", some "")),
  (("flux", "l"), (some "", some "L")),
  (("flux", "L"), (some "CFNT_stats30", some "")),
  (("flux", "Hs"), (none, none)),
  (("flux", "tau"), (some "CFNT_stats30", some "")),
  (("flux", "u_star"), (some "CFNT_stats30", some "")),
  (("flux", "Ts_stdev"), (some "CFNT_stats30", some "Ts_Std")),
  (("flux", "Ts_Ux_cov"), (none, none)),
  (("flux", "Ts_Uy_cov"), (none, none)),
  (("flux", "Ts_Uz_cov"), (none, none)),
  (("flux", "Ux_stdev"), (none, none)),
  (("flux", "Ux_Uy_cov"), (none, none)),
  (("flux", "Ux_Uz_cov"), (none, none)),
  (("flux", "Uy_stdev"), (none, none)),
  (("flux", "Uy_Uz_cov"), (none, none)),
  (("flux", "Uz_stdev"), (some "CFNT_stats30", some "Uz_Std")),
  (("flux", "wnd_spd"), (some "CFNT_stats30", some "")),
  (("flux", "rslt_wnd_spd"), (some "CFNT_stats30", some "")),
  (("flux", "wnd_dir_sonic"), (none, none)),
  (("flux", "std_wnd_dir"), (some "CFNT_stats30", some "")),
  (("flux", "wnd_dir_compass"), (some "CFNT_stats30", some "")),
  (("flux", "Ux_Avg"), (none, none)),
  (("flux", "Uy_Avg"), (none, none)),
  (("flux", "Uz_Avg"), (none, none)),
  (("flux", "Ts_Avg"), (some "CFNT_stats30", some "")),
  (("flux", "sonic_azimuth"), (none, none)),
  (("flux", "sonic_samples_Tot"), (none, none)),
  (("flux", "no_sonic_head_Tot"), (none, none)),
  (("flux", "no_new_sonic_data_Tot"), (none, none)),
  (("flux", "amp_l_f_Tot"), (none, none)),
  (("flux", "amp_h_f_Tot"), (none, none)),
  (("flux", "sig_lck_f_Tot"), (none, none)),
  (("flux", "del_T_f_Tot"), (none, none)),
  (("flux", "aq_sig_f_Tot"), (none, none)),
  (("flux", "sonic_cal_err_f_Tot"), (none, none)),
  (("flux", "Fc_wpl"), (some "CFNT_stats30", some "")),
  (("flux", "LE_wpl"), (some "CFNT_stats30", some "")),
  (("flux", "Hc"), (some "CFNT_stats30", some "")),
  (("flux", "CO2_stdev"), (some "CFNT_stats30", some "CO2_mg_m3_Std")),
  (("flux", "CO2_Ux_cov"), (none, none)),
  (("flux", "CO2_Uy_cov"), (none, none)),
  (("flux", "CO2_Uz_cov"), (none, none)),
  (("flux", "H2O_stdev"), (some "CFNT_stats30", some "H2O_g_m3_Std")),
  (("flux", "H2O_Ux_cov"), (none, none)),
  (("flux", "H2O_Uy_cov"), (none, none)),
  (("flux", "H2O_Uz_cov"), (none, none)),
  (("flux", "Tc_stdev"), (some "CFNT_stats30", some "Tc_Std")),
  (("flux", "Tc_Ux_cov"), (none, none)),
  (("flux", "Tc_Uy_cov"), (none, none)),
  (("flux", "Tc_Uz_cov"), (none, none)),
  (("flux", "CO2_mean"), (some "CFNT_stats30", some "CO2_mg_m3_Avg")),
  (("flux", "H2O_mean"), (some "CFNT_stats30", some "H2O_g_m3_Avg")),
  (("flux", "amb_press_mean"), (some "CFNT_stats30", some "amb_press_Avg")),
  (("flux", "Tc_mean"), (some "CFNT_stats30", some "Tc_Avg")),
  (("flux", "rho_a_mean"), (none, none)),
  (("flux", "Fc_irga"), (none, none)),
  (("flux", "LE_irga"), (none, none)),
  (("flux", "CO2_wpl_LE"), (none, none)),
  (("flux", "CO2_wpl_H"), (none, none)),
  (("flux", "H2O_wpl_LE"), (none, none)),
  (("flux", "H2O_wpl_H"), (none, none)),
  (("flux", "irga_samples_Tot"), (none, none)),
  (("flux", "no_irga_head_Tot"), (none, none)),
  (("flux", "no_new_irga_data_Tot"), (none, none)),
  (("flux", "irga_bad_data_f_Tot"), (none, none)),
  (("flux", "gen_sys_fault_f_Tot"), (none, none)),
  (("flux", "sys_startup_f_Tot"), (none, none)),
  (("flux", "motor_spd_f_Tot"), (none, none)),
  (("flux", "tec_tmpr_f_Tot"), (none, none)),
  (("flux", "src_pwr_f_Tot"), (none, none)),
  (("flux", "src_tmpr_f_Tot"), (none, none)),
  (("flux", "src_curr_f_Tot"), (none, none)),
  (("flux", "irga_off_f_Tot"), (none, none)),
  (("flux", "irga_sync_f_Tot"), (none, none)),
  (("flux", "amb_tmpr_f_Tot"), (none, none)),
  (("flux", "amb_press_f_Tot"), (none, none)),
  (("flux", "CO2_I_f_Tot"), (none, none)),
  (("flux", "CO2_Io_f_Tot"), (none, none)),
  (("flux", "H2O_I_f_Tot"), (none, none)),
  (("flux", "H2O_Io_f_Tot"), (none, none)),
  (("flux", "CO2_Io_var_f_Tot"), (none, none)),
  (("flux", "H2O_Io_var_f_Tot"), (none, none)),
  (("flux", "CO2_sig_strgth_f_Tot"), (none, none)),
  (("flux", "H2O_sig_strgth_f_Tot"), (none, none)),
  (("flux", "CO2_sig_strgth_mean"), (some "CFNT_stats30", some "CO2_signal_Avg")),
  (("flux", "H2O_sig_strgth_mean"), (some "CFNT_stats30", some "H2O_signal_Avg")),
  (("flux", "T_hmp_mean"), (some "CFNT_stats30", some "T_hmp_Avg")),
  (("flux", "e_hmp_mean"), (some "CFNT_stats30", some "e_hmp_Avg")),
  (("flux", "e_sat_hmp_mean"), (some "CFNT_stats30", some "e_sat_hmp_Avg")),
  (("flux", "H2O_hmp_mean"), (none, none)),
  (("flux", "RH_hmp_mean"), (some "CFNT_stats30", some "RH_hmp_Avg")),
  (("flux", "rho_a_mean_hmp"), (none, none)),
  (("flux", "Rn_Avg"), (some "CFNT_stats30", some "")),
  (("flux", "Rn_meas_Avg"), (some "CFNT_stats30", some "")),
  (("flux", "par_totflx_Tot"), (some "", some "PAR_totflx_Tot")),
  (("flux", "PAR_totflx_Tot"), (some "CFNT_stats30", some "")),
  (("flux", "par_flxdens_Avg"), (some "", some "PAR_flxdens_Avg")),
  (("flux", "PAR_flxdens_Avg"), (some "CFNT_stats30", some "")),
  (("flux", "WS_ms_Avg"), (none, none)),
  (("flux", "WS_ms_WVc(1)"), (some "", some "034b_ws")),
  (("flux", "034b_ws"), (some "CFNT_stats30", some "Met1_wnd_spd")),
  (("flux", "WS_ms_WVc(2)"), (some "", some "034b_wd")),
  (("flux", "034b_wd"), (none, none)),
  (("flux", "WS_ms_WVc(3)"), (some "", some "034b_stdwd")),
  (("flux", "034b_stdwd"), (none, none)),
  (("flux", "ati_azimuth"), (none, none)),
  (("flux", "ati_ws"), (none, none)),
  (("flux", "ati_wd"), (none, none)),
  (("flux", "ati_stdwd"), (none, none)),
  (("flux", "atiUavg"), (none, none)),
  (("flux", "atiVavg"), (none, none)),
  (("flux", "atiWavg"), (none, none)),
  (("flux", "atitmpavg"), (none, none)),
  (("flux", "Rain_mm_Tot"), (some "CFNT_stats30", some "")),
  (("flux", "latitude_a"), (none, none)),
  (("flux", "latitude_b"), (none, none)),
  (("flux", "longitude_a"), (none, none)),
  (("flux", "longitude_b"), (none, none)),
  (("flux", "speed"), (none, none)),
  (("flux", "course"), (none, none)),
  (("flux", "magnetic_variation"), (none, none)),
  (("flux", "fix_quality"), (none, none)),
  (("flux", "nmbr_satellites"), (none, none)),
  (("flux", "altitude"), (none, none)),
  (("flux", "pps"), (none, none)),
  (("flux", "dt_since_gprmc"), (none, none)),
  (("flux", "gps_ready"), (none, none)),
  (("flux", "max_clock_change"), (none, none)),
  (("flux", "nmbr_clock_change"), (none, none)),
  (("flux", "panel_tmpr_Avg"), (some "CFNT_stats30", some "")),
  (("flux", "batt_volt_Avg"), (some "CFNT_stats30", some "")),
  (("flux", "slowsequence_Tot"), (none, none))
]

/-- The `table_definitions` dict literal of tables.py (lines 109–294):
for each canonical table name, the ordered list of its column names. -/
def table_definitions_init : List (String × List String) := [
  ("tsdata", ["TIMESTAMP", "RECORD", "Ux", "Uy", "Uz", "Ts", "diag_sonic", "CO2", "H2O", "diag_irga", "amb_tmpr", "amb_press", "CO2_signal", "H2O_signal"]),
  ("stats30", ["TIMESTAMP", "RECORD", "L", "u_star", "tau", "Fc_wpl", "LE_wpl", "Hc", "Ts_Avg", "Ts_Std", "Tc_Avg", "Uz_Std", "wnd_spd", "rslt_wnd_spd", "rslt_wnd_dir", "std_wnd_dir", "sonic_uptime", "CO2_ppm_Avg", "CO2_mg_m3_Avg", "CO2_mg_m3_Std", "CO2_signal_Avg", "H2O_g_kg_Avg", "H2O_g_m3_Avg", "H2O_g_m3_Std", "H2O_signal_Avg", "amb_tmpr_Avg", "amb_press_Avg", "irga_uptime", "T_hmp_Avg", "RH_hmp_Avg", "e_hmp_Avg", "e_sat_hmp_Avg", "Rn_Avg", "Rn_meas_Avg", "PAR_totflx_Tot", "PAR_flxdens_Avg", "Met1_wnd_spd", "Met1_rslt_wnd_spd", "Met1_rslt_wnd_dir", "Met1_std_wnd_dir", "Rain_mm_Tot", "soil_5TM_ID5_E_Avg", "soil_5TM_ID5_T_Avg", "soil_5TM_ID5_VWC_Avg", "soil_5TM_ID6_E_Avg", "soil_5TM_ID6_T_Avg", "soil_5TM_ID6_VWC_Avg", "soil_5TM_ID7_E_Avg", "soil_5TM_ID7_T_Avg", "soil_5TM_ID7_VWC_Avg", "soil_5TM_ID8_E_Avg", "soil_5TM_ID8_T_Avg", "soil_5TM_ID8_VWC_Avg", "soil_5TM_ID9_E_Avg", "soil_5TM_ID9_T_Avg", "soil_5TM_ID9_VWC_Avg", "soil_hfp1_heat_flux_Avg", "soil_hfp1_sensitivity", "soil_hfp2_heat_flux_Avg", "soil_hfp2_sensitivity", "panel_tmpr_Avg", "batt_volt_Avg"]),
  ("site_daily", ["TIMESTAMP", "RECORD", "latitude_Med", "longitude_Med", "magnetic_variation_Med", "nmbr_satellites_Avg", "altitude_Med", "altitude_Avg", "gps_ready_Min", "max_clock_change", "nmbr_clock_change", "batt_volt_Min", "batt_volt_TMn", "batt_volt_Max", "batt_volt_TMx", "T_hmp_Min", "T_hmp_TMn", "T_hmp_Max", "T_hmp_TMx"]),
  ("diagnostics", ["TIMESTAMP", "RECORD", "total_scans", "scans_1hz", "scans_5s", "skipped_10hz_scans", "skipped_1hz_scans", "skipped_5s_scans", "watchdog_errors"]),
  ("site_info", ["TIMESTAMP", "RECORD", "UTC_offset", "sonic_azimuth", "NRLite2_sens", "LI190SB_sens", "HFP_1_sens", "HFP_2_sens", "CompileResults", "CardStatus", "RunSig", "ProgSig", "GitRepoTag", "hfp_installed"]),
  ("extra_info", ["TIMESTAMP", "RECORD", "Decagon_NDVI_installed", "Decagon_PRI_installed", "LGR_n2oco_installed", "lgr_n2o_mult", "lgr_n2o_offset", "lgr_co_mult", "lgr_co_offset", "lgr_h2o_mult", "lgr_h2o_offset", "Picarro_co2ch4_installed", "pic_co2_mult", "pic_co2_offset", "pic_ch4_mult", "pic_ch4_offset", "pic_h2o_mult", "pic_h2o_offset"]),
  ("tsdata_extra", ["TIMESTAMP", "RECORD", "lgr_n2o", "lgr_co", "lgr_h2o", "pic_co2", "pic_ch4", "pic_h2o"]),
  ("stats30_ui", ["TIMESTAMP", "RECORD", "dec_ndvi_up1_Avg", "dec_ndvi_up2_Avg", "dec_ndvi_dn1_Avg", "dec_ndvi_dn2_Avg", "dec_pri_up1_Avg", "dec_pri_up2_Avg", "dec_pri_dn1_Avg", "dec_pri_dn2_Avg", "tblcalls_Tot"]),
  ("stats30_6rad", ["TIMESTAMP", "RECORD", "dec_6rad_uplook_Avg(1)", "dec_6rad_uplook_Avg(2)", "dec_6rad_uplook_Avg(3)", "dec_6rad_uplook_Avg(4)", "dec_6rad_uplook_Avg(5)", "dec_6rad_uplook_Avg(6)", "dec_6rad_dnlook_Avg(1)", "dec_6rad_dnlook_Avg(2)", "dec_6rad_dnlook_Avg(3)", "dec_6rad_dnlook_Avg(4)", "dec_6rad_dnlook_Avg(5)", "dec_6rad_dnlook_Avg(6)", "tblcalls_Tot"])
]

/-- Ordered column list of a named table (`[]` on a missing name; used only
to transcribe the three `copy(...)` lines below, whose source names are all
present). -/
def tableCols (td : List (String × List String)) (name : String) :
    List String :=
  ((td.find? fun p => p.1 = name).map Prod.snd).getD []

/-- The full `table_definitions` mapping: the dict literal plus the three
entries added right after it (tables.py lines 297–299):

```
table_definitions['stats5'] = copy(table_definitions['stats30'])
table_definitions['stats5_6rad'] = copy(table_definitions['stats30_6rad'])
table_definitions['stats5_ui'] = copy(table_definitions['stats30_ui'])
``` -/
def table_definitions : List (String × List String) :=
  table_definitions_init ++
    [("stats5", tableCols table_definitions_init "stats30"),
     ("stats5_6rad", tableCols table_definitions_init "stats30_6rad"),
     ("stats5_ui", tableCols table_definitions_init "stats30_ui")]

/-- The specification's "appears verbatim as a canonical (table, column)
pair in the Schema Definitions": some entry of `table_definitions` has
this table name and lists this column. -/
def inSchemaDefinitions (t c : String) : Bool :=
  table_definitions.any fun p => p.1 = t && p.2.contains c

/-- Python string comparison, `s < t`: lexicographic by code point (the
order `sorted` uses on the dict's tuple keys). -/
def charListLt : List Char → List Char → Bool
  | [], [] => false
  | [], _ :: _ => true
  | _ :: _, [] => false
  | a :: as, b :: bs =>
    if a.val < b.val then true
    else if b.val < a.val then false
    else charListLt as bs

/-- Python tuple comparison `x <= y` on (table, column) string pairs:
lexicographic, component-wise by `charListLt`. -/
def identityLe (x y : Identity) : Bool :=
  charListLt x.1.data y.1.data ||
    (x.1 = y.1 && (charListLt x.2.data y.2.data || x.2 = y.2))

/-- Insert an identity into an already ascending list (helper for
`sortIdentities`). -/
def insertSorted (k : Identity) : List Identity → List Identity
  | [] => [k]
  | x :: xs => if identityLe k x then k :: x :: xs else x :: insertSorted k xs

/-- `sorted(col_alias)`: the dict's keys in ascending tuple order
(insertion sort; Python's sort is comparison-based on the same order). -/
def sortIdentities : List Identity → List Identity
  | [] => []
  | x :: xs => insertSorted x (sortIdentities xs)

/-- The outcome of running `_verify_col_alias`: a normal return carrying
the accumulated warning report (the identities appended to `errs`) and the
returned boolean, or an uncaught exception. -/
inductive VerifyResult where
  | ok (errs : List Identity) (result : Bool)
  | raised (e : PyError)
deriving DecidableEq

/-- The `for (st, sc) in sorted(col_alias)` loop of `_verify_col_alias`
(tables.py lines 1254–1267).  Its body is

```
try:
    dt, dc = current_names(st, sc)
except KeyError:
    errs = errs + ('- unable to complete lookup ...' % (st, sc))
    continue
```

so an exception raised by `current_names` is caught — and the loop
continues, extending the report — only when it is a `KeyError`;
`ColumnNotFoundError` is not a `KeyError`, so it propagates and aborts the
whole call.  After the loop the function returns `False` if `errs` is
non-empty else `True`.  `none` = some `current_names` call inside needed
more than `fuel` nested calls (the verifier itself never returns). -/
def verifyColAliasLoop (a : List (Identity × AliasValue)) (fuel : Nat) :
    List Identity → List Identity → Option VerifyResult
  | [], errs => some (.ok errs errs.isEmpty)
  | (st, sc) :: rest, errs =>
    match current_names a fuel (some st) (some sc) with
    | none => none
    | some (.raised e) =>
      if e = .keyError then verifyColAliasLoop a fuel rest (errs ++ [(st, sc)])
      else some (.raised e)
    | some (.ok _) => verifyColAliasLoop a fuel rest errs

/-- `_verify_col_alias()` run against alias dict `a`: iterate
`current_names` over all dict keys in sorted order (a dict's key set is
duplicate-free, hence the `dedup`), collecting `KeyError` warnings into a
report. -/
def _verify_col_alias (a : List (Identity × AliasValue)) (fuel : Nat) :
    Option VerifyResult :=
  verifyColAliasLoop a fuel (sortIdentities (a.map Prod.fst).dedup) []

/-- One step of the resolver's traversal: `none` when
`current_names(t, c)` returns or raises without recursing, `some (t', c')`
when it tail-calls `current_names(t', c')` — the identity substitution of
tables.py lines 98–103. -/
def stepF (a : List (Identity × AliasValue)) (t c : Option String) :
    Option (Option String × Option String) :=
  match lookupAlias a t c with
  | none => none
  | some (tbl, col) =>
    if (tbl, col) = ((none : Option String), (none : Option String)) then none
    else if (tbl, col) = (some "", some "") then none
    else if tbl = some "" then some (t, col)
    else if col = some "" then some (tbl, c)
    else some (tbl, col)

/-- The traversal chain: the identity reached after `n` substitution
steps, `none` once the traversal has stopped (returned or raised). -/
def chainSeq (a : List (Identity × AliasValue)) (t c : Option String) :
    Nat → Option (Option String × Option String)
  | 0 => some (t, c)
  | n + 1 =>
    match chainSeq a t c n with
    | some (t', c') => stepF a t' c'
    | none => none

/-- Every string (or `None`) occurring in some value tuple of the dict:
the pool the substitution steps draw fresh identity components from. -/
def valueComponents (a : List (Identity × AliasValue)) :
    Finset (Option String) :=
  a.foldr (fun e s => insert e.2.1 (insert e.2.2 s)) ∅

/-- The adversarial alias table of the termination claim, holding the
explicit cycle `A -> B, B -> A`: column `x` of table `A` is declared
renamed to table `B` and vice versa. -/
def cyclicAliasTable : List (Identity × AliasValue) :=
  [(("A", "x"), (some "B", some "")),
   (("B", "x"), (some "A", some ""))]

/-- An alias table with two independent defects, both dangling references:
`(A, x)` redirects to table `B` and `(C, y)` to table `D`, while the dict
has no `(B, x)` or `(D, y)` key. -/
def twoDanglingTable : List (Identity × AliasValue) :=
  [(("A", "x"), (some "B", some "")),
   (("C", "y"), (some "D", some ""))]
/-! ## Basic facts about the helper functions -/

theorem dictFind_nil (key : Identity) : dictFind [] key = none := rfl

theorem dictFind_cons (kv : Identity × AliasValue)
    (l : List (Identity × AliasValue)) (key : Identity) :
    dictFind (kv :: l) key =
      match dictFind l key with
      | some v' => some v'
      | none => if kv.1 = key then some kv.2 else none := rfl

theorem allB_nil {α : Type} (p : α → Bool) : allB p [] = true := rfl

theorem allB_cons {α : Type} (p : α → Bool) (x : α) (l : List α) :
    allB p (x :: l) = (p x && allB p l) := rfl

theorem allB_eq_true_iff {α : Type} (p : α → Bool) (l : List α) :
    allB p l = true ↔ ∀ x ∈ l, p x = true := by
  induction l with
  | nil => simp [allB_nil]
  | cons x xs ih => simp [allB_cons, ih]

theorem allB_append {α : Type} (p : α → Bool) (l1 l2 : List α) :
    allB p (l1 ++ l2) = (allB p l1 && allB p l2) := by
  induction l1 with
  | nil => simp [allB_nil]
  | cons x xs ih => simp [allB_cons, ih, Bool.and_assoc]

theorem dictFind_mem {l : List (Identity × AliasValue)} {key : Identity}
    {v : AliasValue} (h : dictFind l key = some v) : (key, v) ∈ l := by
  induction l with
  | nil => exact absurd h (by simp [dictFind_nil])
  | cons kv rest ih =>
    rw [dictFind_cons] at h
    cases hr : dictFind rest key with
    | some v' =>
      rw [hr] at h
      cases h
      exact List.mem_cons_of_mem _ (ih hr)
    | none =>
      rw [hr] at h
      by_cases hk : kv.1 = key
      · rw [if_pos hk] at h
        cases h
        exact hk ▸ List.mem_cons_self _ _
      · rw [if_neg hk] at h
        cases h

theorem lookupAlias_eq_some {a : List (Identity × AliasValue)}
    {t c : Option String} {v : AliasValue}
    (h : lookupAlias a t c = some v) :
    ∃ x y, t = some x ∧ c = some y ∧ dictFind a (x, y) = some v := by
  cases t with
  | none => exact absurd h (by simp [lookupAlias])
  | some x =>
    cases c with
    | none => exact absurd h (by simp [lookupAlias])
    | some y => exact ⟨x, y, rfl, rfl, h⟩
/-! ## Fuel monotonicity of the resolver -/

theorem current_names_succ (a : List (Identity × AliasValue)) :
    ∀ fuel t c r, current_names a fuel t c = some r →
      current_names a (fuel + 1) t c = some r := by
  intro fuel
  induction fuel with
  | zero => intro t c r h; exact absurd h (by simp [current_names])
  | succ n ih =>
    intro t c r h
    rw [current_names] at h ⊢
    cases hl : lookupAlias a t c with
    | none => simp only [hl] at h ⊢; exact h
    | some v =>
      obtain ⟨tbl, col⟩ := v
      simp only [hl] at h ⊢
      by_cases h1 : (tbl, col) = ((none : Option String), none)
      · rw [if_pos h1] at h ⊢; exact h
      · rw [if_neg h1] at h ⊢
        by_cases h2 : (tbl, col) = (some "", some "")
        · rw [if_pos h2] at h ⊢; exact h
        · rw [if_neg h2] at h ⊢
          by_cases h3 : tbl = some ""
          · rw [if_pos h3] at h ⊢; exact ih _ _ _ h
          · rw [if_neg h3] at h ⊢
            by_cases h4 : col = some ""
            · rw [if_pos h4] at h ⊢; exact ih _ _ _ h
            · rw [if_neg h4] at h ⊢; exact ih _ _ _ h

theorem current_names_mono (a : List (Identity × AliasValue))
    {fuel fuel' : Nat} (hle : fuel ≤ fuel') {t c : Option String}
    {r : PyResult} (h : current_names a fuel t c = some r) :
    current_names a fuel' t c = some r := by
  induction hle with
  | refl => exact h
  | step _ ih => exact current_names_succ a _ _ _ _ ih

/-! ## The substitution-step view of the resolver -/

theorem stepF_none (a : List (Identity × AliasValue)) (t c : Option String)
    (h : stepF a t c = none) : ∃ r, current_names a 1 t c = some r := by
  rw [stepF] at h
  rw [current_names]
  cases hl : lookupAlias a t c with
  | none => simp only [hl]; exact ⟨.raised .columnNotFoundError, rfl⟩
  | some v =>
    obtain ⟨tbl, col⟩ := v
    simp only [hl] at h ⊢
    by_cases h1 : (tbl, col) = ((none : Option String), none)
    · rw [if_pos h1]; exact ⟨.ok (none, none), rfl⟩
    · rw [if_neg h1] at h ⊢
      by_cases h2 : (tbl, col) = (some "", some "")
      · rw [if_pos h2]; exact ⟨.ok (t, c), rfl⟩
      · rw [if_neg h2] at h ⊢
        by_cases h3 : tbl = some ""
        · rw [if_pos h3] at h; cases h
        · rw [if_neg h3] at h
          by_cases h4 : col = some ""
          · rw [if_pos h4] at h; cases h
          · rw [if_neg h4] at h; cases h

theorem stepF_some (a : List (Identity × AliasValue))
    {t c t' c' : Option String} (h : stepF a t c = some (t', c')) :
    ∀ fuel, current_names a (fuel + 1) t c = current_names a fuel t' c' := by
  intro fuel
  rw [stepF] at h
  rw [current_names]
  cases hl : lookupAlias a t c with
  | none => simp only [hl] at h; exact Option.noConfusion h
  | some v =>
    obtain ⟨tbl, col⟩ := v
    simp only [hl] at h ⊢
    by_cases h1 : (tbl, col) = ((none : Option String), none)
    · rw [if_pos h1] at h; cases h
    · rw [if_neg h1] at h ⊢
      by_cases h2 : (tbl, col) = (some "", some "")
      · rw [if_pos h2] at h; cases h
      · rw [if_neg h2] at h ⊢
        by_cases h3 : tbl = some ""
        · rw [if_pos h3] at h ⊢
          obtain ⟨rfl, rfl⟩ := Prod.mk.injEq .. ▸ Option.some.injEq .. ▸ h
          rfl
        · rw [if_neg h3] at h ⊢
          by_cases h4 : col = some ""
          · rw [if_pos h4] at h ⊢
            obtain ⟨rfl, rfl⟩ := Prod.mk.injEq .. ▸ Option.some.injEq .. ▸ h
            rfl
          · rw [if_neg h4] at h ⊢
            obtain ⟨rfl, rfl⟩ := Prod.mk.injEq .. ▸ Option.some.injEq .. ▸ h
            rfl

theorem chainSeq_shift (a : List (Identity × AliasValue))
    (t c : Option String) :
    ∀ n t' c', chainSeq a t c n = some (t', c') →
      ∀ k, current_names a (n + k) t c = current_names a k t' c' := by
  intro n
  induction n with
  | zero =>
    intro t' c' h k
    rw [chainSeq] at h
    rw [Option.some.injEq, Prod.mk.injEq] at h
    obtain ⟨rfl, rfl⟩ := h
    rw [Nat.zero_add]
  | succ n ih =>
    intro t' c' h k
    rw [chainSeq] at h
    cases hc : chainSeq a t c n with
    | none => simp only [hc] at h; exact Option.noConfusion h
    | some p =>
      obtain ⟨t0, c0⟩ := p
      simp only [hc] at h
      calc current_names a (n + 1 + k) t c
          = current_names a (n + (k + 1)) t c := by
            rw [show n + 1 + k = n + (k + 1) from by omega]
        _ = current_names a (k + 1) t0 c0 := ih t0 c0 hc (k + 1)
        _ = current_names a k t' c' := stepF_some a h k

theorem chainSeq_alive (a : List (Identity × AliasValue))
    (t c : Option String)
    (hdiv : ∀ fuel, current_names a fuel t c = none) :
    ∀ n, ∃ t' c', chainSeq a t c n = some (t', c') := by
  intro n
  induction n with
  | zero => exact ⟨t, c, rfl⟩
  | succ n ih =>
    obtain ⟨t', c', h⟩ := ih
    cases hs : stepF a t' c' with
    | none =>
      obtain ⟨r, hr⟩ := stepF_none a t' c' hs
      have hshift := chainSeq_shift a t c n t' c' h 1
      rw [hr, hdiv (n + 1)] at hshift
      cases hshift
    | some p =>
      exact ⟨p.1, p.2, by simp [chainSeq, h, hs]⟩
/-! ## The traversal stays inside a finite pool of identities -/

theorem mem_valueComponents {a : List (Identity × AliasValue)}
    {k : Identity} {v : AliasValue} (h : (k, v) ∈ a) :
    v.1 ∈ valueComponents a ∧ v.2 ∈ valueComponents a := by
  induction a with
  | nil => cases h
  | cons e rest ih =>
    rw [List.mem_cons] at h
    have hunfold : valueComponents (e :: rest) =
        insert e.2.1 (insert e.2.2 (valueComponents rest)) := rfl
    rw [hunfold]
    rcases h with h | h
    · subst h
      exact ⟨Finset.mem_insert_self _ _,
        Finset.mem_insert_of_mem (Finset.mem_insert_self _ _)⟩
    · obtain ⟨h1, h2⟩ := ih h
      exact ⟨Finset.mem_insert_of_mem (Finset.mem_insert_of_mem h1),
        Finset.mem_insert_of_mem (Finset.mem_insert_of_mem h2)⟩

theorem stepF_components {a : List (Identity × AliasValue)}
    {t c t' c' : Option String} (h : stepF a t c = some (t', c')) :
    (t' = t ∨ t' ∈ valueComponents a) ∧
      (c' = c ∨ c' ∈ valueComponents a) := by
  rw [stepF] at h
  cases hl : lookupAlias a t c with
  | none => simp only [hl] at h; exact Option.noConfusion h
  | some v =>
    obtain ⟨tbl, col⟩ := v
    obtain ⟨x, y, _, _, hfind⟩ := lookupAlias_eq_some hl
    have hmem : (tbl, col) ∈ valueComponents a ×ˢ valueComponents a := by
      have := mem_valueComponents (dictFind_mem hfind)
      exact Finset.mk_mem_product this.1 this.2
    rw [Finset.mem_product] at hmem
    simp only [hl] at h
    by_cases h1 : (tbl, col) = ((none : Option String), none)
    · rw [if_pos h1] at h; cases h
    · rw [if_neg h1] at h
      by_cases h2 : (tbl, col) = (some "", some "")
      · rw [if_pos h2] at h; cases h
      · rw [if_neg h2] at h
        by_cases h3 : tbl = some ""
        · rw [if_pos h3] at h
          obtain ⟨rfl, rfl⟩ := Prod.mk.injEq .. ▸ Option.some.injEq .. ▸ h
          exact ⟨Or.inl rfl, Or.inr hmem.2⟩
        · rw [if_neg h3] at h
          by_cases h4 : col = some ""
          · rw [if_pos h4] at h
            obtain ⟨rfl, rfl⟩ := Prod.mk.injEq .. ▸ Option.some.injEq .. ▸ h
            exact ⟨Or.inr hmem.1, Or.inl rfl⟩
          · rw [if_neg h4] at h
            obtain ⟨rfl, rfl⟩ := Prod.mk.injEq .. ▸ Option.some.injEq .. ▸ h
            exact ⟨Or.inr hmem.1, Or.inr hmem.2⟩

theorem chainSeq_components (a : List (Identity × AliasValue))
    (t c : Option String) :
    ∀ n t' c', chainSeq a t c n = some (t', c') →
      t' ∈ insert t (insert c (valueComponents a)) ∧
        c' ∈ insert t (insert c (valueComponents a)) := by
  intro n
  induction n with
  | zero =>
    intro t' c' h
    rw [chainSeq, Option.some.injEq, Prod.mk.injEq] at h
    obtain ⟨rfl, rfl⟩ := h
    exact ⟨Finset.mem_insert_self _ _,
      Finset.mem_insert_of_mem (Finset.mem_insert_self _ _)⟩
  | succ n ih =>
    intro t' c' h
    rw [chainSeq] at h
    cases hc : chainSeq a t c n with
    | none => simp only [hc] at h; exact Option.noConfusion h
    | some p =>
      obtain ⟨t0, c0⟩ := p
      simp only [hc] at h
      obtain ⟨ih1, ih2⟩ := ih t0 c0 hc
      obtain ⟨hs1, hs2⟩ := stepF_components h
      constructor
      · rcases hs1 with rfl | hs1
        · exact ih1
        · exact Finset.mem_insert_of_mem (Finset.mem_insert_of_mem hs1)
      · rcases hs2 with rfl | hs2
        · exact ih2
        · exact Finset.mem_insert_of_mem (Finset.mem_insert_of_mem hs2)

/-- If `current_names` never returns on some input, its traversal chain
must revisit an identity: the chain stays inside the finite pool built
from the start identity and the dict's value fields, so an endless chain
repeats by pigeonhole. -/
theorem loopsForever_revisits (a : List (Identity × AliasValue))
    (t c : Option String) (hdiv : ∀ fuel, current_names a fuel t c = none) :
    ∃ i j, i < j ∧ chainSeq a t c i ≠ none ∧
      chainSeq a t c i = chainSeq a t c j := by
  classical
  have alive := chainSeq_alive a t c hdiv
  set S : Finset (Option String) :=
    insert t (insert c (valueComponents a)) with hS
  set f : Nat → Option String × Option String :=
    fun n => (chainSeq a t c n).getD (none, none) with hf
  have hmaps : ∀ n ∈ Finset.range (S.card * S.card + 1), f n ∈ S ×ˢ S := by
    intro n _
    obtain ⟨t', c', hn⟩ := alive n
    have hcomp := chainSeq_components a t c n t' c' hn
    rw [hf]
    simp only [hn, Option.getD_some]
    exact Finset.mem_product.mpr ⟨hcomp.1, hcomp.2⟩
  have hcard : (S ×ˢ S).card < (Finset.range (S.card * S.card + 1)).card := by
    rw [Finset.card_product, Finset.card_range]
    omega
  obtain ⟨i, hi, j, hj, hne, heq⟩ :=
    Finset.exists_ne_map_eq_of_card_lt_of_maps_to hcard hmaps
  obtain ⟨ti, ci, hci⟩ := alive i
  obtain ⟨tj, cj, hcj⟩ := alive j
  have hchain : chainSeq a t c i = chainSeq a t c j := by
    rw [hci, hcj]
    have : f i = f j := heq
    rw [hf] at this
    simp only [hci, hcj, Option.getD_some] at this
    rw [this]
  rcases Nat.lt_or_ge i j with hij | hij
  · exact ⟨i, j, hij, by rw [hci]; exact Option.noConfusion, hchain⟩
  · have hij' : j < i := lt_of_le_of_ne hij (fun hh => hne (hh ▸ rfl))
    exact ⟨j, i, hij', by rw [hcj]; exact Option.noConfusion, hchain.symm⟩
/-! ## Behaviour of the resolver on the adversarial cycle table -/

theorem cyclicAliasTable_diverges_both :
    ∀ fuel,
      current_names cyclicAliasTable fuel (some "A") (some "x") = none ∧
      current_names cyclicAliasTable fuel (some "B") (some "x") = none := by
  intro fuel
  induction fuel with
  | zero => exact ⟨rfl, rfl⟩
  | succ n ih =>
    have eA : current_names cyclicAliasTable (n + 1) (some "A") (some "x") =
        current_names cyclicAliasTable n (some "B") (some "x") := rfl
    have eB : current_names cyclicAliasTable (n + 1) (some "B") (some "x") =
        current_names cyclicAliasTable n (some "A") (some "x") := rfl
    exact ⟨eA.trans ih.2, eB.trans ih.1⟩

/-- Claim C1, counterexample: on the alias table with the explicit cycle
`A -> B, B -> A`, resolving `(A, x)` never returns — with any fuel the
recursion of `current_names` is still running, so the Python original
recurses until the interpreter kills it with an untyped `RecursionError`.
There is no visited-set and no `CyclicAlias` value anywhere in the code:
contrary to the claim, resolution does not terminate on every alias table
and no typed cycle failure exists. -/
theorem c1_counterexample : loopsForever cyclicAliasTable (some "A") (some "x") :=
  fun fuel => (cyclicAliasTable_diverges_both fuel).1

/-- Claim C1, amended: for every alias table and every input identity,
resolution either terminates (some fuel makes `current_names` return)
or the traversal chain revisits an identity — i.e. the only source of
non-termination is a cycle in the chain, but a cycle makes the resolver
loop forever (see `c1_counterexample`) instead of producing a typed
`CyclicAlias` failure, because `current_names` keeps no visited-set. -/
theorem c1_terminates_or_revisits (a : List (Identity × AliasValue))
    (t c : Option String) :
    (∃ r, resolves a t c r) ∨
    (∃ i j, i < j ∧ chainSeq a t c i ≠ none ∧
      chainSeq a t c i = chainSeq a t c j) := by
  classical
  by_cases hterm : ∃ fuel r, current_names a fuel t c = some r
  · obtain ⟨fuel, r, h⟩ := hterm
    exact Or.inl ⟨r, fuel, h⟩
  · refine Or.inr (loopsForever_revisits a t c fun fuel => ?_)
    cases hh : current_names a fuel t c with
    | none => rfl
    | some r => exact absurd ⟨fuel, r, hh⟩ hterm

/-- Claim C2, counterexample: the chain of `('stats30_n2o_co',
'lgr_co_Avg')` terminates in the `('','')` Current sentinel and
`current_names` returns the identity, although it appears nowhere in
`table_definitions` — there is no schema cross-check and no
`SchemaMismatch` failure in `current_names`. -/
theorem c2_counterexample :
    current_names col_alias 1 (some "stats30_n2o_co") (some "lgr_co_Avg") =
      some (.ok (some "stats30_n2o_co", some "lgr_co_Avg")) ∧
    inSchemaDefinitions "stats30_n2o_co" "lgr_co_Avg" = false := by decide!

/-- Claim C2, amended: whenever lookup of an identity yields the
`('','')` Current sentinel, `current_names` returns that identity
unconditionally — it never consults the Schema Definitions and has no
`SchemaMismatch` outcome (the schema comparison lives only in the
separate `_verify_table_definitions` self-test pass). -/
theorem c2_current_unconditional (a : List (Identity × AliasValue))
    (t c : Option String)
    (h : lookupAlias a t c = some (some "", some "")) :
    ∀ fuel, current_names a (fuel + 1) t c = some (.ok (t, c)) := by
  intro fuel
  rw [current_names]
  simp only [h]
  rfl

/-- Claim C2, witness: `c2_current_unconditional` applied to the shipped
dict at `('stats30_n2o_co', 'lgr_co_Avg')`, whose value is `('','')`. -/
theorem c2_witness :
    lookupAlias col_alias (some "stats30_n2o_co") (some "lgr_co_Avg") =
      some (some "", some "") ∧
    current_names col_alias 1 (some "stats30_n2o_co") (some "lgr_co_Avg") =
      some (.ok (some "stats30_n2o_co", some "lgr_co_Avg")) := by
  have h : lookupAlias col_alias (some "stats30_n2o_co") (some "lgr_co_Avg") =
      some (some "", some "") := by decide!
  exact ⟨h, c2_current_unconditional col_alias _ _ h 0⟩

/-- Claim C3: on an alias table with two independent defects (the
dangling references at `(A, x)` and `(C, y)`), the `_verify_col_alias`
pass does not report both — it aborts at the first key with an uncaught
`ColumnNotFoundError` and produces no report at all, because its
`except KeyError` handler never matches the `ColumnNotFoundError` that
`current_names` actually raises.  The docstring ("Return truth of whether
column lookup table is free of missing data") and the dead
error-collection branch show the code intends to collect every failure,
so this is a defect in the code, not in the claim. -/
theorem c3_verifier_aborts :
    _verify_col_alias twoDanglingTable 20 =
      some (.raised .columnNotFoundError) ∧
    current_names twoDanglingTable 20 (some "A") (some "x") =
      some (.raised .columnNotFoundError) ∧
    current_names twoDanglingTable 20 (some "C") (some "y") =
      some (.raised .columnNotFoundError) := by decide

/-! ## Per-table kernel evaluations behind the schema-agreement claim -/

theorem c4_table_tsdata : allB
    (fun col => decide (current_names col_alias 20 (some "tsdata") (some col) =
      some (.ok (some "tsdata", some col))))
    ["TIMESTAMP", "RECORD", "Ux", "Uy", "Uz", "Ts", "diag_sonic", "CO2", "H2O", "diag_irga", "amb_tmpr", "amb_press", "CO2_signal", "H2O_signal"] = true := by decide!

theorem c4_eval_stats30_1 : allB
    (fun col => decide (current_names col_alias 20 (some "stats30") (some col) =
      some (.ok (some "stats30", some col))))
    ["TIMESTAMP", "RECORD", "L", "u_star", "tau", "Fc_wpl", "LE_wpl", "Hc", "Ts_Avg", "Ts_Std", "Tc_Avg", "Uz_Std", "wnd_spd", "rslt_wnd_spd", "rslt_wnd_dir", "std_wnd_dir"] = true := by decide!

theorem c4_eval_stats30_2 : allB
    (fun col => decide (current_names col_alias 20 (some "stats30") (some col) =
      some (.ok (some "stats30", some col))))
    ["sonic_uptime", "CO2_ppm_Avg", "CO2_mg_m3_Avg", "CO2_mg_m3_Std", "CO2_signal_Avg", "H2O_g_kg_Avg", "H2O_g_m3_Avg", "H2O_g_m3_Std", "H2O_signal_Avg", "amb_tmpr_Avg", "amb_press_Avg", "irga_uptime", "T_hmp_Avg", "RH_hmp_Avg", "e_hmp_Avg", "e_sat_hmp_Avg"] = true := by decide!

theorem c4_eval_stats30_3 : allB
    (fun col => decide (current_names col_alias 20 (some "stats30") (some col) =
      some (.ok (some "stats30", some col))))
    ["Rn_Avg", "Rn_meas_Avg", "PAR_totflx_Tot", "PAR_flxdens_Avg", "Met1_wnd_spd", "Met1_rslt_wnd_spd", "Met1_rslt_wnd_dir", "Met1_std_wnd_dir", "Rain_mm_Tot", "soil_5TM_ID5_E_Avg", "soil_5TM_ID5_T_Avg", "soil_5TM_ID5_VWC_Avg", "soil_5TM_ID6_E_Avg", "soil_5TM_ID6_T_Avg", "soil_5TM_ID6_VWC_Avg", "soil_5TM_ID7_E_Avg"] = true := by decide!

theorem c4_eval_stats30_4 : allB
    (fun col => decide (current_names col_alias 20 (some "stats30") (some col) =
      some (.ok (some "stats30", some col))))
    ["soil_5TM_ID7_T_Avg", "soil_5TM_ID7_VWC_Avg", "soil_5TM_ID8_E_Avg", "soil_5TM_ID8_T_Avg", "soil_5TM_ID8_VWC_Avg", "soil_5TM_ID9_E_Avg", "soil_5TM_ID9_T_Avg", "soil_5TM_ID9_VWC_Avg", "soil_hfp1_heat_flux_Avg", "soil_hfp1_sensitivity", "soil_hfp2_heat_flux_Avg", "soil_hfp2_sensitivity", "panel_tmpr_Avg", "batt_volt_Avg"] = true := by decide!

theorem c4_table_stats30 : allB
    (fun col => decide (current_names col_alias 20 (some "stats30") (some col) =
      some (.ok (some "stats30", some col))))
    ["TIMESTAMP", "RECORD", "L", "u_star", "tau", "Fc_wpl", "LE_wpl", "Hc", "Ts_Avg", "Ts_Std", "Tc_Avg", "Uz_Std", "wnd_spd", "rslt_wnd_spd", "rslt_wnd_dir", "std_wnd_dir", "sonic_uptime", "CO2_ppm_Avg", "CO2_mg_m3_Avg", "CO2_mg_m3_Std", "CO2_signal_Avg", "H2O_g_kg_Avg", "H2O_g_m3_Avg", "H2O_g_m3_Std", "H2O_signal_Avg", "amb_tmpr_Avg", "amb_press_Avg", "irga_uptime", "T_hmp_Avg", "RH_hmp_Avg", "e_hmp_Avg", "e_sat_hmp_Avg", "Rn_Avg", "Rn_meas_Avg", "PAR_totflx_Tot", "PAR_flxdens_Avg", "Met1_wnd_spd", "Met1_rslt_wnd_spd", "Met1_rslt_wnd_dir", "Met1_std_wnd_dir", "Rain_mm_Tot", "soil_5TM_ID5_E_Avg", "soil_5TM_ID5_T_Avg", "soil_5TM_ID5_VWC_Avg", "soil_5TM_ID6_E_Avg", "soil_5TM_ID6_T_Avg", "soil_5TM_ID6_VWC_Avg", "soil_5TM_ID7_E_Avg", "soil_5TM_ID7_T_Avg", "soil_5TM_ID7_VWC_Avg", "soil_5TM_ID8_E_Avg", "soil_5TM_ID8_T_Avg", "soil_5TM_ID8_VWC_Avg", "soil_5TM_ID9_E_Avg", "soil_5TM_ID9_T_Avg", "soil_5TM_ID9_VWC_Avg", "soil_hfp1_heat_flux_Avg", "soil_hfp1_sensitivity", "soil_hfp2_heat_flux_Avg", "soil_hfp2_sensitivity", "panel_tmpr_Avg", "batt_volt_Avg"] = true := by
  rw [show (["TIMESTAMP", "RECORD", "L", "u_star", "tau", "Fc_wpl", "LE_wpl", "Hc", "Ts_Avg", "Ts_Std", "Tc_Avg", "Uz_Std", "wnd_spd", "rslt_wnd_spd", "rslt_wnd_dir", "std_wnd_dir", "sonic_uptime", "CO2_ppm_Avg", "CO2_mg_m3_Avg", "CO2_mg_m3_Std", "CO2_signal_Avg", "H2O_g_kg_Avg", "H2O_g_m3_Avg", "H2O_g_m3_Std", "H2O_signal_Avg", "amb_tmpr_Avg", "amb_press_Avg", "irga_uptime", "T_hmp_Avg", "RH_hmp_Avg", "e_hmp_Avg", "e_sat_hmp_Avg", "Rn_Avg", "Rn_meas_Avg", "PAR_totflx_Tot", "PAR_flxdens_Avg", "Met1_wnd_spd", "Met1_rslt_wnd_spd", "Met1_rslt_wnd_dir", "Met1_std_wnd_dir", "Rain_mm_Tot", "soil_5TM_ID5_E_Avg", "soil_5TM_ID5_T_Avg", "soil_5TM_ID5_VWC_Avg", "soil_5TM_ID6_E_Avg", "soil_5TM_ID6_T_Avg", "soil_5TM_ID6_VWC_Avg", "soil_5TM_ID7_E_Avg", "soil_5TM_ID7_T_Avg", "soil_5TM_ID7_VWC_Avg", "soil_5TM_ID8_E_Avg", "soil_5TM_ID8_T_Avg", "soil_5TM_ID8_VWC_Avg", "soil_5TM_ID9_E_Avg", "soil_5TM_ID9_T_Avg", "soil_5TM_ID9_VWC_Avg", "soil_hfp1_heat_flux_Avg", "soil_hfp1_sensitivity", "soil_hfp2_heat_flux_Avg", "soil_hfp2_sensitivity", "panel_tmpr_Avg", "batt_volt_Avg"] : List String) =
    (["TIMESTAMP", "RECORD", "L", "u_star", "tau", "Fc_wpl", "LE_wpl", "Hc", "Ts_Avg", "Ts_Std", "Tc_Avg", "Uz_Std", "wnd_spd", "rslt_wnd_spd", "rslt_wnd_dir", "std_wnd_dir"] ++ (["sonic_uptime", "CO2_ppm_Avg", "CO2_mg_m3_Avg", "CO2_mg_m3_Std", "CO2_signal_Avg", "H2O_g_kg_Avg", "H2O_g_m3_Avg", "H2O_g_m3_Std", "H2O_signal_Avg", "amb_tmpr_Avg", "amb_press_Avg", "irga_uptime", "T_hmp_Avg", "RH_hmp_Avg", "e_hmp_Avg", "e_sat_hmp_Avg"] ++ (["Rn_Avg", "Rn_meas_Avg", "PAR_totflx_Tot", "PAR_flxdens_Avg", "Met1_wnd_spd", "Met1_rslt_wnd_spd", "Met1_rslt_wnd_dir", "Met1_std_wnd_dir", "Rain_mm_Tot", "soil_5TM_ID5_E_Avg", "soil_5TM_ID5_T_Avg", "soil_5TM_ID5_VWC_Avg", "soil_5TM_ID6_E_Avg", "soil_5TM_ID6_T_Avg", "soil_5TM_ID6_VWC_Avg", "soil_5TM_ID7_E_Avg"] ++ ["soil_5TM_ID7_T_Avg", "soil_5TM_ID7_VWC_Avg", "soil_5TM_ID8_E_Avg", "soil_5TM_ID8_T_Avg", "soil_5TM_ID8_VWC_Avg", "soil_5TM_ID9_E_Avg", "soil_5TM_ID9_T_Avg", "soil_5TM_ID9_VWC_Avg", "soil_hfp1_heat_flux_Avg", "soil_hfp1_sensitivity", "soil_hfp2_heat_flux_Avg", "soil_hfp2_sensitivity", "panel_tmpr_Avg", "batt_volt_Avg"]))) from rfl]
  rw [allB_append, c4_eval_stats30_1, allB_append, c4_eval_stats30_2, allB_append, c4_eval_stats30_3, c4_eval_stats30_4]
  rfl

theorem c4_eval_site_daily_1 : allB
    (fun col => decide (current_names col_alias 20 (some "site_daily") (some col) =
      some (.ok (some "site_daily", some col))))
    ["TIMESTAMP", "RECORD", "latitude_Med", "longitude_Med", "magnetic_variation_Med", "nmbr_satellites_Avg", "altitude_Med", "altitude_Avg", "gps_ready_Min", "max_clock_change", "nmbr_clock_change", "batt_volt_Min", "batt_volt_TMn", "batt_volt_Max", "batt_volt_TMx", "T_hmp_Min"] = true := by decide!

theorem c4_eval_site_daily_2 : allB
    (fun col => decide (current_names col_alias 20 (some "site_daily") (some col) =
      some (.ok (some "site_daily", some col))))
    ["T_hmp_TMn", "T_hmp_Max", "T_hmp_TMx"] = true := by decide!

theorem c4_table_site_daily : allB
    (fun col => decide (current_names col_alias 20 (some "site_daily") (some col) =
      some (.ok (some "site_daily", some col))))
    ["TIMESTAMP", "RECORD", "latitude_Med", "longitude_Med", "magnetic_variation_Med", "nmbr_satellites_Avg", "altitude_Med", "altitude_Avg", "gps_ready_Min", "max_clock_change", "nmbr_clock_change", "batt_volt_Min", "batt_volt_TMn", "batt_volt_Max", "batt_volt_TMx", "T_hmp_Min", "T_hmp_TMn", "T_hmp_Max", "T_hmp_TMx"] = true := by
  rw [show (["TIMESTAMP", "RECORD", "latitude_Med", "longitude_Med", "magnetic_variation_Med", "nmbr_satellites_Avg", "altitude_Med", "altitude_Avg", "gps_ready_Min", "max_clock_change", "nmbr_clock_change", "batt_volt_Min", "batt_volt_TMn", "batt_volt_Max", "batt_volt_TMx", "T_hmp_Min", "T_hmp_TMn", "T_hmp_Max", "T_hmp_TMx"] : List String) =
    (["TIMESTAMP", "RECORD", "latitude_Med", "longitude_Med", "magnetic_variation_Med", "nmbr_satellites_Avg", "altitude_Med", "altitude_Avg", "gps_ready_Min", "max_clock_change", "nmbr_clock_change", "batt_volt_Min", "batt_volt_TMn", "batt_volt_Max", "batt_volt_TMx", "T_hmp_Min"] ++ ["T_hmp_TMn", "T_hmp_Max", "T_hmp_TMx"]) from rfl]
  rw [allB_append, c4_eval_site_daily_1, c4_eval_site_daily_2]
  rfl

theorem c4_table_diagnostics : allB
    (fun col => decide (current_names col_alias 20 (some "diagnostics") (some col) =
      some (.ok (some "diagnostics", some col))))
    ["TIMESTAMP", "RECORD", "total_scans", "scans_1hz", "scans_5s", "skipped_10hz_scans", "skipped_1hz_scans", "skipped_5s_scans", "watchdog_errors"] = true := by decide!

theorem c4_table_site_info : allB
    (fun col => decide (current_names col_alias 20 (some "site_info") (some col) =
      some (.ok (some "site_info", some col))))
    ["TIMESTAMP", "RECORD", "UTC_offset", "sonic_azimuth", "NRLite2_sens", "LI190SB_sens", "HFP_1_sens", "HFP_2_sens", "CompileResults", "CardStatus", "RunSig", "ProgSig", "GitRepoTag", "hfp_installed"] = true := by decide!

theorem c4_eval_extra_info_1 : allB
    (fun col => decide (current_names col_alias 20 (some "extra_info") (some col) =
      some (.ok (some "extra_info", some col))))
    ["TIMESTAMP", "RECORD", "Decagon_NDVI_installed", "Decagon_PRI_installed", "LGR_n2oco_installed", "lgr_n2o_mult", "lgr_n2o_offset", "lgr_co_mult", "lgr_co_offset", "lgr_h2o_mult", "lgr_h2o_offset", "Picarro_co2ch4_installed", "pic_co2_mult", "pic_co2_offset", "pic_ch4_mult", "pic_ch4_offset"] = true := by decide!

theorem c4_eval_extra_info_2 : allB
    (fun col => decide (current_names col_alias 20 (some "extra_info") (some col) =
      some (.ok (some "extra_info", some col))))
    ["pic_h2o_mult", "pic_h2o_offset"] = true := by decide!

theorem c4_table_extra_info : allB
    (fun col => decide (current_names col_alias 20 (some "extra_info") (some col) =
      some (.ok (some "extra_info", some col))))
    ["TIMESTAMP", "RECORD", "Decagon_NDVI_installed", "Decagon_PRI_installed", "LGR_n2oco_installed", "lgr_n2o_mult", "lgr_n2o_offset", "lgr_co_mult", "lgr_co_offset", "lgr_h2o_mult", "lgr_h2o_offset", "Picarro_co2ch4_installed", "pic_co2_mult", "pic_co2_offset", "pic_ch4_mult", "pic_ch4_offset", "pic_h2o_mult", "pic_h2o_offset"] = true := by
  rw [show (["TIMESTAMP", "RECORD", "Decagon_NDVI_installed", "Decagon_PRI_installed", "LGR_n2oco_installed", "lgr_n2o_mult", "lgr_n2o_offset", "lgr_co_mult", "lgr_co_offset", "lgr_h2o_mult", "lgr_h2o_offset", "Picarro_co2ch4_installed", "pic_co2_mult", "pic_co2_offset", "pic_ch4_mult", "pic_ch4_offset", "pic_h2o_mult", "pic_h2o_offset"] : List String) =
    (["TIMESTAMP", "RECORD", "Decagon_NDVI_installed", "Decagon_PRI_installed", "LGR_n2oco_installed", "lgr_n2o_mult", "lgr_n2o_offset", "lgr_co_mult", "lgr_co_offset", "lgr_h2o_mult", "lgr_h2o_offset", "Picarro_co2ch4_installed", "pic_co2_mult", "pic_co2_offset", "pic_ch4_mult", "pic_ch4_offset"] ++ ["pic_h2o_mult", "pic_h2o_offset"]) from rfl]
  rw [allB_append, c4_eval_extra_info_1, c4_eval_extra_info_2]
  rfl

theorem c4_table_tsdata_extra : allB
    (fun col => decide (current_names col_alias 20 (some "tsdata_extra") (some col) =
      some (.ok (some "tsdata_extra", some col))))
    ["TIMESTAMP", "RECORD", "lgr_n2o", "lgr_co", "lgr_h2o", "pic_co2", "pic_ch4", "pic_h2o"] = true := by decide!

theorem c4_table_stats30_ui : allB
    (fun col => decide (current_names col_alias 20 (some "stats30_ui") (some col) =
      some (.ok (some "stats30_ui", some col))))
    ["TIMESTAMP", "RECORD", "dec_ndvi_up1_Avg", "dec_ndvi_up2_Avg", "dec_ndvi_dn1_Avg", "dec_ndvi_dn2_Avg", "dec_pri_up1_Avg", "dec_pri_up2_Avg", "dec_pri_dn1_Avg", "dec_pri_dn2_Avg", "tblcalls_Tot"] = true := by decide!

theorem c4_table_stats30_6rad : allB
    (fun col => decide (current_names col_alias 20 (some "stats30_6rad") (some col) =
      some (.ok (some "stats30_6rad", some col))))
    ["TIMESTAMP", "RECORD", "dec_6rad_uplook_Avg(1)", "dec_6rad_uplook_Avg(2)", "dec_6rad_uplook_Avg(3)", "dec_6rad_uplook_Avg(4)", "dec_6rad_uplook_Avg(5)", "dec_6rad_uplook_Avg(6)", "dec_6rad_dnlook_Avg(1)", "dec_6rad_dnlook_Avg(2)", "dec_6rad_dnlook_Avg(3)", "dec_6rad_dnlook_Avg(4)", "dec_6rad_dnlook_Avg(5)", "dec_6rad_dnlook_Avg(6)", "tblcalls_Tot"] = true := by decide!

theorem c4_eval_stats5_1 : allB
    (fun col => decide (current_names col_alias 20 (some "stats5") (some col) =
      some (.ok (some "stats5", some col))))
    ["TIMESTAMP", "RECORD", "L", "u_star", "tau", "Fc_wpl", "LE_wpl", "Hc", "Ts_Avg", "Ts_Std", "Tc_Avg", "Uz_Std", "wnd_spd", "rslt_wnd_spd", "rslt_wnd_dir", "std_wnd_dir"] = true := by decide!

theorem c4_eval_stats5_2 : allB
    (fun col => decide (current_names col_alias 20 (some "stats5") (some col) =
      some (.ok (some "stats5", some col))))
    ["sonic_uptime", "CO2_ppm_Avg", "CO2_mg_m3_Avg", "CO2_mg_m3_Std", "CO2_signal_Avg", "H2O_g_kg_Avg", "H2O_g_m3_Avg", "H2O_g_m3_Std", "H2O_signal_Avg", "amb_tmpr_Avg", "amb_press_Avg", "irga_uptime", "T_hmp_Avg", "RH_hmp_Avg", "e_hmp_Avg", "e_sat_hmp_Avg"] = true := by decide!

theorem c4_eval_stats5_3 : allB
    (fun col => decide (current_names col_alias 20 (some "stats5") (some col) =
      some (.ok (some "stats5", some col))))
    ["Rn_Avg", "Rn_meas_Avg", "PAR_totflx_Tot", "PAR_flxdens_Avg", "Met1_wnd_spd", "Met1_rslt_wnd_spd", "Met1_rslt_wnd_dir", "Met1_std_wnd_dir", "Rain_mm_Tot", "soil_5TM_ID5_E_Avg", "soil_5TM_ID5_T_Avg", "soil_5TM_ID5_VWC_Avg", "soil_5TM_ID6_E_Avg", "soil_5TM_ID6_T_Avg", "soil_5TM_ID6_VWC_Avg", "soil_5TM_ID7_E_Avg"] = true := by decide!

theorem c4_eval_stats5_4 : allB
    (fun col => decide (current_names col_alias 20 (some "stats5") (some col) =
      some (.ok (some "stats5", some col))))
    ["soil_5TM_ID7_T_Avg", "soil_5TM_ID7_VWC_Avg", "soil_5TM_ID8_E_Avg", "soil_5TM_ID8_T_Avg", "soil_5TM_ID8_VWC_Avg", "soil_5TM_ID9_E_Avg", "soil_5TM_ID9_T_Avg", "soil_5TM_ID9_VWC_Avg", "soil_hfp1_heat_flux_Avg", "soil_hfp1_sensitivity", "soil_hfp2_heat_flux_Avg", "soil_hfp2_sensitivity", "panel_tmpr_Avg", "batt_volt_Avg"] = true := by decide!

theorem c4_table_stats5 : allB
    (fun col => decide (current_names col_alias 20 (some "stats5") (some col) =
      some (.ok (some "stats5", some col))))
    ["TIMESTAMP", "RECORD", "L", "u_star", "tau", "Fc_wpl", "LE_wpl", "Hc", "Ts_Avg", "Ts_Std", "Tc_Avg", "Uz_Std", "wnd_spd", "rslt_wnd_spd", "rslt_wnd_dir", "std_wnd_dir", "sonic_uptime", "CO2_ppm_Avg", "CO2_mg_m3_Avg", "CO2_mg_m3_Std", "CO2_signal_Avg", "H2O_g_kg_Avg", "H2O_g_m3_Avg", "H2O_g_m3_Std", "H2O_signal_Avg", "amb_tmpr_Avg", "amb_press_Avg", "irga_uptime", "T_hmp_Avg", "RH_hmp_Avg", "e_hmp_Avg", "e_sat_hmp_Avg", "Rn_Avg", "Rn_meas_Avg", "PAR_totflx_Tot", "PAR_flxdens_Avg", "Met1_wnd_spd", "Met1_rslt_wnd_spd", "Met1_rslt_wnd_dir", "Met1_std_wnd_dir", "Rain_mm_Tot", "soil_5TM_ID5_E_Avg", "soil_5TM_ID5_T_Avg", "soil_5TM_ID5_VWC_Avg", "soil_5TM_ID6_E_Avg", "soil_5TM_ID6_T_Avg", "soil_5TM_ID6_VWC_Avg", "soil_5TM_ID7_E_Avg", "soil_5TM_ID7_T_Avg", "soil_5TM_ID7_VWC_Avg", "soil_5TM_ID8_E_Avg", "soil_5TM_ID8_T_Avg", "soil_5TM_ID8_VWC_Avg", "soil_5TM_ID9_E_Avg", "soil_5TM_ID9_T_Avg", "soil_5TM_ID9_VWC_Avg", "soil_hfp1_heat_flux_Avg", "soil_hfp1_sensitivity", "soil_hfp2_heat_flux_Avg", "soil_hfp2_sensitivity", "panel_tmpr_Avg", "batt_volt_Avg"] = true := by
  rw [show (["TIMESTAMP", "RECORD", "L", "u_star", "tau", "Fc_wpl", "LE_wpl", "Hc", "Ts_Avg", "Ts_Std", "Tc_Avg", "Uz_Std", "wnd_spd", "rslt_wnd_spd", "rslt_wnd_dir", "std_wnd_dir", "sonic_uptime", "CO2_ppm_Avg", "CO2_mg_m3_Avg", "CO2_mg_m3_Std", "CO2_signal_Avg", "H2O_g_kg_Avg", "H2O_g_m3_Avg", "H2O_g_m3_Std", "H2O_signal_Avg", "amb_tmpr_Avg", "amb_press_Avg", "irga_uptime", "T_hmp_Avg", "RH_hmp_Avg", "e_hmp_Avg", "e_sat_hmp_Avg", "Rn_Avg", "Rn_meas_Avg", "PAR_totflx_Tot", "PAR_flxdens_Avg", "Met1_wnd_spd", "Met1_rslt_wnd_spd", "Met1_rslt_wnd_dir", "Met1_std_wnd_dir", "Rain_mm_Tot", "soil_5TM_ID5_E_Avg", "soil_5TM_ID5_T_Avg", "soil_5TM_ID5_VWC_Avg", "soil_5TM_ID6_E_Avg", "soil_5TM_ID6_T_Avg", "soil_5TM_ID6_VWC_Avg", "soil_5TM_ID7_E_Avg", "soil_5TM_ID7_T_Avg", "soil_5TM_ID7_VWC_Avg", "soil_5TM_ID8_E_Avg", "soil_5TM_ID8_T_Avg", "soil_5TM_ID8_VWC_Avg", "soil_5TM_ID9_E_Avg", "soil_5TM_ID9_T_Avg", "soil_5TM_ID9_VWC_Avg", "soil_hfp1_heat_flux_Avg", "soil_hfp1_sensitivity", "soil_hfp2_heat_flux_Avg", "soil_hfp2_sensitivity", "panel_tmpr_Avg", "batt_volt_Avg"] : List String) =
    (["TIMESTAMP", "RECORD", "L", "u_star", "tau", "Fc_wpl", "LE_wpl", "Hc", "Ts_Avg", "Ts_Std", "Tc_Avg", "Uz_Std", "wnd_spd", "rslt_wnd_spd", "rslt_wnd_dir", "std_wnd_dir"] ++ (["sonic_uptime", "CO2_ppm_Avg", "CO2_mg_m3_Avg", "CO2_mg_m3_Std", "CO2_signal_Avg", "H2O_g_kg_Avg", "H2O_g_m3_Avg", "H2O_g_m3_Std", "H2O_signal_Avg", "amb_tmpr_Avg", "amb_press_Avg", "irga_uptime", "T_hmp_Avg", "RH_hmp_Avg", "e_hmp_Avg", "e_sat_hmp_Avg"] ++ (["Rn_Avg", "Rn_meas_Avg", "PAR_totflx_Tot", "PAR_flxdens_Avg", "Met1_wnd_spd", "Met1_rslt_wnd_spd", "Met1_rslt_wnd_dir", "Met1_std_wnd_dir", "Rain_mm_Tot", "soil_5TM_ID5_E_Avg", "soil_5TM_ID5_T_Avg", "soil_5TM_ID5_VWC_Avg", "soil_5TM_ID6_E_Avg", "soil_5TM_ID6_T_Avg", "soil_5TM_ID6_VWC_Avg", "soil_5TM_ID7_E_Avg"] ++ ["soil_5TM_ID7_T_Avg", "soil_5TM_ID7_VWC_Avg", "soil_5TM_ID8_E_Avg", "soil_5TM_ID8_T_Avg", "soil_5TM_ID8_VWC_Avg", "soil_5TM_ID9_E_Avg", "soil_5TM_ID9_T_Avg", "soil_5TM_ID9_VWC_Avg", "soil_hfp1_heat_flux_Avg", "soil_hfp1_sensitivity", "soil_hfp2_heat_flux_Avg", "soil_hfp2_sensitivity", "panel_tmpr_Avg", "batt_volt_Avg"]))) from rfl]
  rw [allB_append, c4_eval_stats5_1, allB_append, c4_eval_stats5_2, allB_append, c4_eval_stats5_3, c4_eval_stats5_4]
  rfl

theorem c4_table_stats5_6rad : allB
    (fun col => decide (current_names col_alias 20 (some "stats5_6rad") (some col) =
      some (.ok (some "stats5_6rad", some col))))
    ["TIMESTAMP", "RECORD", "dec_6rad_uplook_Avg(1)", "dec_6rad_uplook_Avg(2)", "dec_6rad_uplook_Avg(3)", "dec_6rad_uplook_Avg(4)", "dec_6rad_uplook_Avg(5)", "dec_6rad_uplook_Avg(6)", "dec_6rad_dnlook_Avg(1)", "dec_6rad_dnlook_Avg(2)", "dec_6rad_dnlook_Avg(3)", "dec_6rad_dnlook_Avg(4)", "dec_6rad_dnlook_Avg(5)", "dec_6rad_dnlook_Avg(6)", "tblcalls_Tot"] = true := by decide!

theorem c4_table_stats5_ui : allB
    (fun col => decide (current_names col_alias 20 (some "stats5_ui") (some col) =
      some (.ok (some "stats5_ui", some col))))
    ["TIMESTAMP", "RECORD", "dec_ndvi_up1_Avg", "dec_ndvi_up2_Avg", "dec_ndvi_dn1_Avg", "dec_ndvi_dn2_Avg", "dec_pri_up1_Avg", "dec_pri_up2_Avg", "dec_pri_dn1_Avg", "dec_pri_dn2_Avg", "tblcalls_Tot"] = true := by decide!

/-- Claim C4: every (table, column) pair of the Schema Definitions
resolves to itself — the shipped alias dict and schema lists agree on
every canonical identity.  (`allB ... = true` says exactly "for every
table entry and every column of its list", by `allB_eq_true_iff`; the
inner `decide` coerces each resolution equation to its evaluated Boolean
check.) -/
theorem c4_schema_agreement : allB (fun p => allB (fun col =>
    decide (current_names col_alias 20 (some p.1) (some col) =
      some (.ok (some p.1, some col)))) p.2) table_definitions = true := by
  show (allB
      (fun col => decide (current_names col_alias 20 (some "tsdata") (some col) =
      some (.ok (some "tsdata", some col))))
      ["TIMESTAMP", "RECORD", "Ux", "Uy", "Uz", "Ts", "diag_sonic", "CO2", "H2O", "diag_irga", "amb_tmpr", "amb_press", "CO2_signal", "H2O_signal"] &&
    (allB
      (fun col => decide (current_names col_alias 20 (some "stats30") (some col) =
      some (.ok (some "stats30", some col))))
      ["TIMESTAMP", "RECORD", "L", "u_star", "tau", "Fc_wpl", "LE_wpl", "Hc", "Ts_Avg", "Ts_Std", "Tc_Avg", "Uz_Std", "wnd_spd", "rslt_wnd_spd", "rslt_wnd_dir", "std_wnd_dir", "sonic_uptime", "CO2_ppm_Avg", "CO2_mg_m3_Avg", "CO2_mg_m3_Std", "CO2_signal_Avg", "H2O_g_kg_Avg", "H2O_g_m3_Avg", "H2O_g_m3_Std", "H2O_signal_Avg", "amb_tmpr_Avg", "amb_press_Avg", "irga_uptime", "T_hmp_Avg", "RH_hmp_Avg", "e_hmp_Avg", "e_sat_hmp_Avg", "Rn_Avg", "Rn_meas_Avg", "PAR_totflx_Tot", "PAR_flxdens_Avg", "Met1_wnd_spd", "Met1_rslt_wnd_spd", "Met1_rslt_wnd_dir", "Met1_std_wnd_dir", "Rain_mm_Tot", "soil_5TM_ID5_E_Avg", "soil_5TM_ID5_T_Avg", "soil_5TM_ID5_VWC_Avg", "soil_5TM_ID6_E_Avg", "soil_5TM_ID6_T_Avg", "soil_5TM_ID6_VWC_Avg", "soil_5TM_ID7_E_Avg", "soil_5TM_ID7_T_Avg", "soil_5TM_ID7_VWC_Avg", "soil_5TM_ID8_E_Avg", "soil_5TM_ID8_T_Avg", "soil_5TM_ID8_VWC_Avg", "soil_5TM_ID9_E_Avg", "soil_5TM_ID9_T_Avg", "soil_5TM_ID9_VWC_Avg", "soil_hfp1_heat_flux_Avg", "soil_hfp1_sensitivity", "soil_hfp2_heat_flux_Avg", "soil_hfp2_sensitivity", "panel_tmpr_Avg", "batt_volt_Avg"] &&
    (allB
      (fun col => decide (current_names col_alias 20 (some "site_daily") (some col) =
      some (.ok (some "site_daily", some col))))
      ["TIMESTAMP", "RECORD", "latitude_Med", "longitude_Med", "magnetic_variation_Med", "nmbr_satellites_Avg", "altitude_Med", "altitude_Avg", "gps_ready_Min", "max_clock_change", "nmbr_clock_change", "batt_volt_Min", "batt_volt_TMn", "batt_volt_Max", "batt_volt_TMx", "T_hmp_Min", "T_hmp_TMn", "T_hmp_Max", "T_hmp_TMx"] &&
    (allB
      (fun col => decide (current_names col_alias 20 (some "diagnostics") (some col) =
      some (.ok (some "diagnostics", some col))))
      ["TIMESTAMP", "RECORD", "total_scans", "scans_1hz", "scans_5s", "skipped_10hz_scans", "skipped_1hz_scans", "skipped_5s_scans", "watchdog_errors"] &&
    (allB
      (fun col => decide (current_names col_alias 20 (some "site_info") (some col) =
      some (.ok (some "site_info", some col))))
      ["TIMESTAMP", "RECORD", "UTC_offset", "sonic_azimuth", "NRLite2_sens", "LI190SB_sens", "HFP_1_sens", "HFP_2_sens", "CompileResults", "CardStatus", "RunSig", "ProgSig", "GitRepoTag", "hfp_installed"] &&
    (allB
      (fun col => decide (current_names col_alias 20 (some "extra_info") (some col) =
      some (.ok (some "extra_info", some col))))
      ["TIMESTAMP", "RECORD", "Decagon_NDVI_installed", "Decagon_PRI_installed", "LGR_n2oco_installed", "lgr_n2o_mult", "lgr_n2o_offset", "lgr_co_mult", "lgr_co_offset", "lgr_h2o_mult", "lgr_h2o_offset", "Picarro_co2ch4_installed", "pic_co2_mult", "pic_co2_offset", "pic_ch4_mult", "pic_ch4_offset", "pic_h2o_mult", "pic_h2o_offset"] &&
    (allB
      (fun col => decide (current_names col_alias 20 (some "tsdata_extra") (some col) =
      some (.ok (some "tsdata_extra", some col))))
      ["TIMESTAMP", "RECORD", "lgr_n2o", "lgr_co", "lgr_h2o", "pic_co2", "pic_ch4", "pic_h2o"] &&
    (allB
      (fun col => decide (current_names col_alias 20 (some "stats30_ui") (some col) =
      some (.ok (some "stats30_ui", some col))))
      ["TIMESTAMP", "RECORD", "dec_ndvi_up1_Avg", "dec_ndvi_up2_Avg", "dec_ndvi_dn1_Avg", "dec_ndvi_dn2_Avg", "dec_pri_up1_Avg", "dec_pri_up2_Avg", "dec_pri_dn1_Avg", "dec_pri_dn2_Avg", "tblcalls_Tot"] &&
    (allB
      (fun col => decide (current_names col_alias 20 (some "stats30_6rad") (some col) =
      some (.ok (some "stats30_6rad", some col))))
      ["TIMESTAMP", "RECORD", "dec_6rad_uplook_Avg(1)", "dec_6rad_uplook_Avg(2)", "dec_6rad_uplook_Avg(3)", "dec_6rad_uplook_Avg(4)", "dec_6rad_uplook_Avg(5)", "dec_6rad_uplook_Avg(6)", "dec_6rad_dnlook_Avg(1)", "dec_6rad_dnlook_Avg(2)", "dec_6rad_dnlook_Avg(3)", "dec_6rad_dnlook_Avg(4)", "dec_6rad_dnlook_Avg(5)", "dec_6rad_dnlook_Avg(6)", "tblcalls_Tot"] &&
    (allB
      (fun col => decide (current_names col_alias 20 (some "stats5") (some col) =
      some (.ok (some "stats5", some col))))
      ["TIMESTAMP", "RECORD", "L", "u_star", "tau", "Fc_wpl", "LE_wpl", "Hc", "Ts_Avg", "Ts_Std", "Tc_Avg", "Uz_Std", "wnd_spd", "rslt_wnd_spd", "rslt_wnd_dir", "std_wnd_dir", "sonic_uptime", "CO2_ppm_Avg", "CO2_mg_m3_Avg", "CO2_mg_m3_Std", "CO2_signal_Avg", "H2O_g_kg_Avg", "H2O_g_m3_Avg", "H2O_g_m3_Std", "H2O_signal_Avg", "amb_tmpr_Avg", "amb_press_Avg", "irga_uptime", "T_hmp_Avg", "RH_hmp_Avg", "e_hmp_Avg", "e_sat_hmp_Avg", "Rn_Avg", "Rn_meas_Avg", "PAR_totflx_Tot", "PAR_flxdens_Avg", "Met1_wnd_spd", "Met1_rslt_wnd_spd", "Met1_rslt_wnd_dir", "Met1_std_wnd_dir", "Rain_mm_Tot", "soil_5TM_ID5_E_Avg", "soil_5TM_ID5_T_Avg", "soil_5TM_ID5_VWC_Avg", "soil_5TM_ID6_E_Avg", "soil_5TM_ID6_T_Avg", "soil_5TM_ID6_VWC_Avg", "soil_5TM_ID7_E_Avg", "soil_5TM_ID7_T_Avg", "soil_5TM_ID7_VWC_Avg", "soil_5TM_ID8_E_Avg", "soil_5TM_ID8_T_Avg", "soil_5TM_ID8_VWC_Avg", "soil_5TM_ID9_E_Avg", "soil_5TM_ID9_T_Avg", "soil_5TM_ID9_VWC_Avg", "soil_hfp1_heat_flux_Avg", "soil_hfp1_sensitivity", "soil_hfp2_heat_flux_Avg", "soil_hfp2_sensitivity", "panel_tmpr_Avg", "batt_volt_Avg"] &&
    (allB
      (fun col => decide (current_names col_alias 20 (some "stats5_6rad") (some col) =
      some (.ok (some "stats5_6rad", some col))))
      ["TIMESTAMP", "RECORD", "dec_6rad_uplook_Avg(1)", "dec_6rad_uplook_Avg(2)", "dec_6rad_uplook_Avg(3)", "dec_6rad_uplook_Avg(4)", "dec_6rad_uplook_Avg(5)", "dec_6rad_uplook_Avg(6)", "dec_6rad_dnlook_Avg(1)", "dec_6rad_dnlook_Avg(2)", "dec_6rad_dnlook_Avg(3)", "dec_6rad_dnlook_Avg(4)", "dec_6rad_dnlook_Avg(5)", "dec_6rad_dnlook_Avg(6)", "tblcalls_Tot"] &&
    (allB
      (fun col => decide (current_names col_alias 20 (some "stats5_ui") (some col) =
      some (.ok (some "stats5_ui", some col))))
      ["TIMESTAMP", "RECORD", "dec_ndvi_up1_Avg", "dec_ndvi_up2_Avg", "dec_ndvi_dn1_Avg", "dec_ndvi_dn2_Avg", "dec_pri_up1_Avg", "dec_pri_up2_Avg", "dec_pri_dn1_Avg", "dec_pri_dn2_Avg", "tblcalls_Tot"] && true)))))))))))) = true
  rw [c4_table_tsdata, c4_table_stats30, c4_table_site_daily, c4_table_diagnostics, c4_table_site_info, c4_table_extra_info, c4_table_tsdata_extra, c4_table_stats30_ui, c4_table_stats30_6rad, c4_table_stats5, c4_table_stats5_6rad, c4_table_stats5_ui]
  rfl

/-- Claim C5: resolving `('flux', 'WS_ms_WVc(1)')` follows the shipped
multi-hop chain through `('flux', '034b_ws')` and
`('CFNT_stats30', 'Met1_wnd_spd')` and returns
`('stats30', 'Met1_wnd_spd')`. -/
theorem c5_multi_hop_chain :
    dictFind col_alias ("flux", "WS_ms_WVc(1)") =
      some (some "", some "034b_ws") ∧
    dictFind col_alias ("flux", "034b_ws") =
      some (some "CFNT_stats30", some "Met1_wnd_spd") ∧
    dictFind col_alias ("CFNT_stats30", "Met1_wnd_spd") =
      some (some "stats30", some "") ∧
    dictFind col_alias ("stats30", "Met1_wnd_spd") =
      some (some "", some "") ∧
    current_names col_alias 4 (some "flux") (some "WS_ms_WVc(1)") =
      some (.ok (some "stats30", some "Met1_wnd_spd")) := by decide!

/-- Claim C6: a column-only override `('', X)` with `X ≠ ''` on key
`(T, Y)` makes the resolver recurse on `(T, X)` — table carried over —
so resolution of `(T, Y)` and of `(T, X)` agree; symmetrically, a
table-only override `(T2, '')` with `T2 ≠ ''` recurses on `(T2, Y)`. -/
theorem c6_partial_override (a : List (Identity × AliasValue))
    (T Y X T2 : String) :
    (lookupAlias a (some T) (some Y) = some (some "", some X) → X ≠ "" →
      (∀ fuel, current_names a (fuel + 1) (some T) (some Y) =
        current_names a fuel (some T) (some X)) ∧
      (∀ r, resolves a (some T) (some Y) r ↔
        resolves a (some T) (some X) r)) ∧
    (lookupAlias a (some T) (some Y) = some (some T2, some "") → T2 ≠ "" →
      (∀ fuel, current_names a (fuel + 1) (some T) (some Y) =
        current_names a fuel (some T2) (some Y)) ∧
      (∀ r, resolves a (some T) (some Y) r ↔
        resolves a (some T2) (some Y) r)) := by
  constructor
  · intro h hX
    have hstep : ∀ fuel, current_names a (fuel + 1) (some T) (some Y) =
        current_names a fuel (some T) (some X) := by
      intro fuel
      rw [current_names]
      simp only [h]
      simp [hX]
    refine ⟨hstep, fun r => ⟨?_, ?_⟩⟩
    · rintro ⟨fuel, hr⟩
      cases fuel with
      | zero => exact absurd hr (by simp [current_names])
      | succ n => exact ⟨n, (hstep n).symm.trans hr⟩
    · rintro ⟨fuel, hr⟩
      exact ⟨fuel + 1, (hstep fuel).trans hr⟩
  · intro h hT2
    have hstep : ∀ fuel, current_names a (fuel + 1) (some T) (some Y) =
        current_names a fuel (some T2) (some Y) := by
      intro fuel
      rw [current_names]
      simp only [h]
      simp [hT2]
    refine ⟨hstep, fun r => ⟨?_, ?_⟩⟩
    · rintro ⟨fuel, hr⟩
      cases fuel with
      | zero => exact absurd hr (by simp [current_names])
      | succ n => exact ⟨n, (hstep n).symm.trans hr⟩
    · rintro ⟨fuel, hr⟩
      exact ⟨fuel + 1, (hstep fuel).trans hr⟩

/-- Claim C6, witness: `c6_partial_override` applied to the shipped
column-only override at `('flux', 'WS_ms_WVc(1)')` and the shipped
table-only override at `('stats30_extra', 'TIMESTAMP')`. -/
theorem c6_witness :
    lookupAlias col_alias (some "flux") (some "WS_ms_WVc(1)") =
      some (some "", some "034b_ws") ∧
    current_names col_alias 4 (some "flux") (some "WS_ms_WVc(1)") =
      current_names col_alias 3 (some "flux") (some "034b_ws") ∧
    lookupAlias col_alias (some "stats30_extra") (some "TIMESTAMP") =
      some (some "stats30_n2o_co", some "") ∧
    current_names col_alias 4 (some "stats30_extra") (some "TIMESTAMP") =
      current_names col_alias 3 (some "stats30_n2o_co")
        (some "TIMESTAMP") := by
  have h1 : lookupAlias col_alias (some "flux") (some "WS_ms_WVc(1)") =
      some (some "", some "034b_ws") := by decide!
  have h2 : lookupAlias col_alias (some "stats30_extra")
      (some "TIMESTAMP") = some (some "stats30_n2o_co", some "") := by
    decide!
  exact ⟨h1,
    ((c6_partial_override col_alias "flux" "WS_ms_WVc(1)" "034b_ws"
      "").1 h1 (by decide)).1 3,
    h2,
    ((c6_partial_override col_alias "stats30_extra" "TIMESTAMP" ""
      "stats30_n2o_co").2 h2 (by decide)).1 3⟩

/-- Claim C7: an identity with no entry in the alias dict makes
`current_names` raise the typed `ColumnNotFoundError` — deterministically
that outcome, never another result and never a silently returned
default. -/
theorem c7_unknown_identity (a : List (Identity × AliasValue))
    (t c : String) (h : dictFind a (t, c) = none) :
    ∀ fuel, current_names a (fuel + 1) (some t) (some c) =
      some (.raised .columnNotFoundError) := by
  intro fuel
  rw [current_names]
  have hl : lookupAlias a (some t) (some c) = none := h
  simp only [hl]

/-- Claim C7, witness: `c7_unknown_identity` applied to the shipped dict
at the absent identity `('flux', 'no_such_column')`. -/
theorem c7_witness :
    dictFind col_alias ("flux", "no_such_column") = none ∧
    current_names col_alias 1 (some "flux") (some "no_such_column") =
      some (.raised .columnNotFoundError) := by
  have h : dictFind col_alias ("flux", "no_such_column") = none := by
    decide!
  exact ⟨h, c7_unknown_identity col_alias _ _ h 0⟩

/-- Claim C8: the shipped dict maps `('flux', 'gps_ready')` to the
`(None, None)` Removed sentinel and `current_names` returns
`(None, None)` — the Dropped outcome, not an exception and not a current
identity. -/
theorem c8_drop_correctness :
    dictFind col_alias ("flux", "gps_ready") = some (none, none) ∧
    current_names col_alias 1 (some "flux") (some "gps_ready") =
      some (.ok (none, none)) := by decide!

/-- Claim C9: whenever `current_names` returns a pair other than
`(None, None)`, that pair is itself a key of the dict whose value is the
`('','')` Current sentinel, and resolving it returns it unchanged —
successful resolution is idempotent. -/
theorem c9_idempotent (a : List (Identity × AliasValue)) :
    ∀ fuel t c v, current_names a fuel t c = some (.ok v) →
      v ≠ ((none : Option String), (none : Option String)) →
      lookupAlias a v.1 v.2 = some (some "", some "") ∧
      current_names a 1 v.1 v.2 = some (.ok v) := by
  intro fuel
  induction fuel with
  | zero => intro t c v h hv; exact absurd h (by simp [current_names])
  | succ n ih =>
    intro t c v h hv
    rw [current_names] at h
    cases hl : lookupAlias a t c with
    | none => simp only [hl] at h; simp at h
    | some val =>
      obtain ⟨tbl, col⟩ := val
      simp only [hl] at h
      by_cases h1 : (tbl, col) = ((none : Option String), none)
      · rw [if_pos h1] at h
        rw [Option.some.injEq] at h
        injection h with hh
        exact absurd hh.symm hv
      · rw [if_neg h1] at h
        by_cases h2 : (tbl, col) = (some "", some "")
        · rw [if_pos h2] at h
          rw [Option.some.injEq] at h
          injection h with hh
          subst hh
          refine ⟨h2 ▸ hl, ?_⟩
          rw [current_names]
          simp only [hl]
          rw [if_neg h1, if_pos h2]
        · rw [if_neg h2] at h
          by_cases h3 : tbl = some ""
          · rw [if_pos h3] at h; exact ih _ _ _ h hv
          · rw [if_neg h3] at h
            by_cases h4 : col = some ""
            · rw [if_pos h4] at h; exact ih _ _ _ h hv
            · rw [if_neg h4] at h; exact ih _ _ _ h hv

/-- Claim C9, witness: `c9_idempotent` applied to the successful shipped
resolution of `('flux', 'WS_ms_WVc(1)')` to
`('stats30', 'Met1_wnd_spd')`. -/
theorem c9_witness :
    current_names col_alias 4 (some "flux") (some "WS_ms_WVc(1)") =
      some (.ok (some "stats30", some "Met1_wnd_spd")) ∧
    lookupAlias col_alias (some "stats30") (some "Met1_wnd_spd") =
      some (some "", some "") ∧
    current_names col_alias 1 (some "stats30") (some "Met1_wnd_spd") =
      some (.ok (some "stats30", some "Met1_wnd_spd")) := by
  have h : current_names col_alias 4 (some "flux") (some "WS_ms_WVc(1)") =
      some (.ok (some "stats30", some "Met1_wnd_spd")) := by decide!
  have h2 := c9_idempotent col_alias 4 _ _ _ h (by decide)
  exact ⟨h, h2.1, h2.2⟩

/-- Claim C10: every value of the shipped dict is either the
`(None, None)` Removed sentinel or a pair of two strings (among them the
`('','')` Current sentinel); `None` is never paired with a string, so the
resolver's equality test against `(None, None)` recognises every Removed
entry and no substitution step ever feeds `None` into a lookup key. -/
theorem c10_value_shapes :
    allB (fun e =>
      match e.2 with
      | (none, none) => true
      | (some _, some _) => true
      | _ => false) col_alias = true := by decide!
